import Mathlib

/-!
Verification of the behavioral-analytics core of the Hamail trading backend.

The JavaScript sources under `src/services/analysis`, `src/services/zentra`
and their helpers are shallowly embedded below.  Conventions:

* JS numbers are modelled by `ℚ` (the engine performs exact-looking decimal
  arithmetic; floating-point rounding is not modelled), timestamps by `ℤ`
  (milliseconds since epoch, as produced by `Date#getTime`).
* Nullable trade fields (`riskPercentUsed`, `riskRewardAchieved`,
  `targetPercentAchieved`) are `Option ℚ`; a JS truthiness test `x` on a
  number is `x ≠ 0`, on a nullable number it is `isSome ∧ value ≠ 0`.
* `Math.round x` is `⌊x + 1/2⌋` (JS rounds half-up, also for negatives).
* `Math.round (Math.sqrt v)` for rational `v ≥ 0` is computed exactly via
  `⌊√v + 1/2⌋ = ⌊(⌊√(4v)⌋ + 1) / 2⌋` and `⌊√x⌋ = ⌊√⌊x⌋⌋`.
* Presentation-only output (indicator/recommendation strings, messages,
  `lastUpdated` timestamps, score breakdown arrays) is not modelled; the
  control flow that selects it is.
* Functions that read the wall clock (`Date.now`, `new Date()`) take the
  current time `now : ℤ` as an explicit parameter.
-/

/- Rational arithmetic in Batteries is `@[irreducible]`; concrete inputs in
this development are evaluated by `decide`, which needs these operations to
reduce.  The change is local to this file and does not affect soundness. -/
attribute [local semireducible] Rat.add Rat.sub Rat.mul Rat.inv Rat.ofScientific

/-- Trading sessions (`models/enums.js`, `TradingSessions`). -/
inductive Session where
  | LONDON
  | NY
  | ASIA
deriving DecidableEq, Repr

/-- Psychological states (`models/enums.js`, `PsychologicalState`). -/
inductive PsychState where
  | STABLE
  | OVEREXTENDED
  | HESITANT
  | AGGRESSIVE
deriving DecidableEq, Repr

/-- Risk levels (`models/enums.js`, `RiskLevel`). -/
inductive RiskLevel where
  | LOW
  | MEDIUM
  | HIGH
deriving DecidableEq, Repr

/-- Insight types (`models/enums.js`, `PerformanceInsightType`). -/
inductive InsightType where
  | POSITIVE
  | CONSTRUCTIVE
deriving DecidableEq, Repr

/-- A closed trade (`models/trade.model.js`).  `entryTime`/`exitTime` are in
milliseconds; the three nullable numeric fields default to `null` in the
schema.  Fields not used by the analytics core (ids, MT5 metadata) are
omitted. -/
structure Trade where
  entryTime : ℤ
  exitTime : ℤ
  profitLoss : ℚ
  riskPercentUsed : Option ℚ := none
  riskRewardAchieved : Option ℚ := none
  targetPercentAchieved : Option ℚ := none
  session : Session
  stopLossHit : Bool := false
  exitedEarly : Bool := false
  notes : String := ""
deriving DecidableEq, Repr

/-- A trading plan (`models/tradingPlan.model.js`); `stopLossDiscipline` is
never read by the analytics core and is omitted. -/
structure Plan where
  maxTradesPerDay : ℕ
  riskPercentPerTrade : ℚ
  targetRiskRewardRatio : ℚ := 1
  preferredSessions : List Session
deriving DecidableEq, Repr

/-- `Math.round`: JS rounds half away from zero for positive numbers and
half toward positive infinity in general, i.e. `⌊x + 1/2⌋`. -/
def jsRound (q : ℚ) : ℤ := ⌊q + 1/2⌋

/-- JS truthiness of a nullable number: `null` and `0` are falsy. -/
def qTruthy : Option ℚ → Bool
  | none => false
  | some v => decide (v ≠ 0)

/-- Mean of a list of rationals (callers guard against the empty list,
mirroring the JS `length > 0 ?` checks). -/
def avgQ (l : List ℚ) : ℚ := l.sum / l.length

/-- Insertion of a rational into an ascending list (for the numeric
`sort((a, b) => a - b)` used on target percentages). -/
def insertAsc (x : ℚ) : List ℚ → List ℚ
  | [] => [x]
  | y :: ys => if x ≤ y then x :: y :: ys else y :: insertAsc x ys

/-- Ascending numeric sort, `arr.slice().sort((a, b) => a - b)`. -/
def sortAsc : List ℚ → List ℚ
  | [] => []
  | x :: xs => insertAsc x (sortAsc xs)

/-- Stable insertion by entry time: an element is placed before the first
later-or-equal key, so elements with equal keys keep their original order,
matching the (ES2019) stable `Array.prototype.sort`. -/
def insertByEntry (x : Trade) : List Trade → List Trade
  | [] => [x]
  | y :: ys => if x.entryTime ≤ y.entryTime then x :: y :: ys else y :: insertByEntry x ys

/-- Stable sort by entry time, `sort((a, b) => new Date(a.entryTime) - new Date(b.entryTime))`. -/
def sortByEntry : List Trade → List Trade
  | [] => []
  | x :: xs => insertByEntry x (sortByEntry xs)

/-- Calendar-day bucket of a timestamp: `new Date(t).toISOString().split('T')[0]`
identifies the UTC day, i.e. `⌊t / 86400000⌋`. -/
def dayKey (t : Trade) : ℤ := Int.fdiv t.entryTime 86400000

/-- `utils/computeMedian.js`: median of an already-sorted list, `0` when empty. -/
def computeMedian (sortedNumbers : List ℚ) : ℚ :=
  if sortedNumbers.length = 0 then 0
  else
    let midIdx := sortedNumbers.length / 2
    if sortedNumbers.length % 2 = 1 then sortedNumbers.getD midIdx 0
    else (sortedNumbers.getD (midIdx - 1) 0 + sortedNumbers.getD midIdx 0) / 2

/-- Result record of `calculateBasicMetrics` (`services/analysis/metrics.js`).
The zero-trade branch's extra `riskBreaches: 0` field is dead data (callers
obtain risk breaches from `calculateRiskBreaches`) and is not modelled. -/
structure BasicMetrics where
  winRate : ℚ
  avgRiskUsed : ℚ
  avgRR : ℚ
  medianTargetPct : ℚ
  nearTargetHits : ℕ
  earlyExits : ℕ
deriving DecidableEq, Repr

/-- `services/analysis/metrics.js`, `calculateBasicMetrics`.  The
`filter((t) => t.riskPercentUsed != null)` followed by reading the field is
rendered as `filterMap`; `typeof v === 'number' && v != null` on target
percentages is the same non-null filter in this model. -/
def calculateBasicMetrics (trades : List Trade) : BasicMetrics :=
  if trades.length = 0 then
    { winRate := 0, avgRiskUsed := 0, avgRR := 0, medianTargetPct := 0
      nearTargetHits := 0, earlyExits := 0 }
  else
    let winCount := (trades.filter (fun t => decide (t.profitLoss > 0))).length
    let winRate : ℚ := winCount / trades.length
    let risks := trades.filterMap (·.riskPercentUsed)
    let avgRiskUsed := if risks.length > 0 then avgQ risks else 0
    let rrs := trades.filterMap (·.riskRewardAchieved)
    let avgRR := if rrs.length > 0 then avgQ rrs else 0
    let targetPercents := trades.filterMap (·.targetPercentAchieved)
    let medianTargetPct := computeMedian (sortAsc targetPercents)
    let nearTargetHits :=
      (trades.filter (fun t =>
        match t.targetPercentAchieved with
        | some v => decide (v ≥ 80)
        | none => false)).length
    let earlyExits :=
      (trades.filter (fun t =>
        t.exitedEarly ||
          (decide (t.profitLoss > 0) &&
            match t.targetPercentAchieved with
            | some v => decide (v ≥ 30) && decide (v ≤ 80)
            | none => false))).length
    { winRate := winRate, avgRiskUsed := avgRiskUsed, avgRR := avgRR
      medianTargetPct := medianTargetPct, nearTargetHits := nearTargetHits
      earlyExits := earlyExits }

/-- Result record of `calculateDayMetrics`. -/
structure DayMetrics where
  daysWithTrades : ℕ
  exceededDays : ℕ
  outsideSessionDays : ℕ
deriving DecidableEq, Repr

/-- Is the trade's session outside the plan's preferred sessions
(`!(plan.preferredSessions || []).includes(t.session)`)? -/
def isOutsideSession (plan : Plan) (t : Trade) : Bool :=
  decide (t.session ∉ plan.preferredSessions)

/-- `services/analysis/metrics.js`, `calculateDayMetrics`.  The JS groups by
the ISO date string of `entryTime`; distinct day keys are the `dedup` of the
mapped keys (only their number and per-key counts are consumed, so the
iteration order of `Object.keys` is immaterial).  `plan.maxTradesPerDay ||
Infinity` means a plan value of `0` never marks a day as exceeded. -/
def calculateDayMetrics (trades : List Trade) (plan : Plan) : DayMetrics :=
  let keys := (trades.map dayKey).dedup
  let countOf : ℤ → ℕ := fun k => (trades.map dayKey).count k
  let daysWithTrades := if keys.length = 0 then 1 else keys.length
  let exceededDays :=
    (keys.filter (fun k =>
      if plan.maxTradesPerDay = 0 then false else decide (countOf k > plan.maxTradesPerDay))).length
  let outsideSessionDays :=
    (((trades.filter (isOutsideSession plan)).map dayKey).dedup).length
  { daysWithTrades := daysWithTrades, exceededDays := exceededDays
    outsideSessionDays := outsideSessionDays }

/-- Result record of `calculateRiskSpike`. -/
structure RiskSpikeData where
  riskSpike : Bool
  last3Breaches : ℕ
deriving DecidableEq, Repr

/-- `services/analysis/metrics.js`, `calculateRiskSpike`. -/
def calculateRiskSpike (trades : List Trade) (planRisk : ℚ) : RiskSpikeData :=
  if trades.length = 0 then { riskSpike := false, last3Breaches := 0 }
  else
    let risks := trades.filterMap (·.riskPercentUsed)
    let recentAvgRisk := if risks.length > 0 then avgQ risks else planRisk
    let riskSpikeThreshold := max (planRisk * (13/10)) (recentAvgRisk * (13/10))
    let last3Breaches :=
      ((trades.take 3).filter (fun t =>
        match t.riskPercentUsed with
        | some v => decide (v > riskSpikeThreshold)
        | none => false)).length
    { riskSpike := decide (last3Breaches ≥ 2), last3Breaches := last3Breaches }

/-- `services/analysis/metrics.js`, `calculateRiskBreaches`. -/
def calculateRiskBreaches (trades : List Trade) (planRisk : ℚ) : ℕ :=
  (trades.filter (fun t =>
    match t.riskPercentUsed with
    | some v => decide (v > planRisk * (3/2))
    | none => false)).length

/-- `services/analysis/planAdherence.js`, `calculatePlanAdherence`.  It reads
`riskBreaches` and `nearTargetHits` from the metrics object and the three
day metrics.  Over exact rationals the four components are never `NaN`
(every denominator is `max 1 _ ≥ 1`), so all four `Number.isNaN` guards pass
and `weightSum = 0.4 + 0.25 + 0.25 + 0.1 = 1`. -/
def calculatePlanAdherence (riskBreaches nearTargetHits : ℕ) (dayMetrics : DayMetrics)
    (totalTrades : ℕ) : ℤ :=
  let riskDiscipline : ℚ := 1 - (riskBreaches : ℚ) / (max 1 totalTrades : ℕ)
  let sessionAdherence : ℚ :=
    1 - (dayMetrics.outsideSessionDays : ℚ) / (max 1 dayMetrics.daysWithTrades : ℕ)
  let tradeCountDiscipline : ℚ :=
    1 - (dayMetrics.exceededDays : ℚ) / (max 1 dayMetrics.daysWithTrades : ℕ)
  let targetProgress : ℚ := min 1 ((nearTargetHits : ℚ) / (max 1 totalTrades : ℕ))
  let adherenceWeighted :=
    (4/10) * riskDiscipline + (25/100) * sessionAdherence +
      (25/100) * tradeCountDiscipline + (1/10) * targetProgress
  jsRound (adherenceWeighted * 100)

/-- `services/analysis/confidence.js`, `calculateConfidence`.  `planRisk ?
avgRiskUsed / planRisk : 1` tests numeric truthiness, and `medianTargetPct
|| 0` is the identity on numbers. -/
def calculateConfidence (metrics : BasicMetrics) (planAdherence : ℤ) (planRisk : ℚ)
    (totalTrades : ℕ) : ℤ :=
  let sampleFactor : ℚ := (min totalTrades 10 : ℕ) / 10
  let discipline : ℚ := (planAdherence : ℚ) / 100
  let signalStrength :=
    max (|(if planRisk = 0 then 1 else metrics.avgRiskUsed / planRisk) - 1|)
      (max (|metrics.winRate - 1/2| * 2) (|metrics.medianTargetPct / 100 - 6/10|))
  let confidence :=
    jsRound (100 * ((1/2) * discipline + (3/10) * sampleFactor + (2/10) * signalStrength))
  let confidence := max 10 (min 95 confidence)
  if totalTrades < 5 then min confidence 40 else confidence

/-- `services/analysis/stateDetermination.js`, `determineState`.  Indicator
and recommendation strings are presentation data and not modelled; the
returned state and the branch structure selecting it are. -/
def determineState (metrics : BasicMetrics) (dayMetrics : DayMetrics)
    (riskMetrics : RiskSpikeData) (riskBreaches : ℕ) (avgRiskUsed planRisk : ℚ)
    (totalTrades : ℕ) : PsychState :=
  let overextended :=
    dayMetrics.daysWithTrades > 0 ∧
      ((dayMetrics.exceededDays : ℚ) / dayMetrics.daysWithTrades ≥ 33/100 ∨
        (dayMetrics.outsideSessionDays : ℚ) / dayMetrics.daysWithTrades ≥ 33/100)
  let aggressive :=
    riskMetrics.riskSpike = true ∨
      (riskBreaches : ℚ) / (max 1 totalTrades : ℕ) ≥ 25/100 ∨
      avgRiskUsed > planRisk * (5/4)
  let hesitant :=
    (metrics.earlyExits : ℚ) / (max 1 totalTrades : ℕ) ≥ 4/10 ∨
      (metrics.medianTargetPct < 60 ∧ metrics.winRate ≤ 6/10)
  if overextended then PsychState.OVEREXTENDED
  else if aggressive then PsychState.AGGRESSIVE
  else if hesitant then PsychState.HESITANT
  else PsychState.STABLE

/-- Output of `analyzePsychologicalState` (`services/analysis/stateAnalysis.js`);
indicators, recommendations and `lastUpdated` are presentation data and
omitted. -/
structure StateResult where
  state : PsychState
  confidence : ℤ
  planAdherence : ℤ
  analyzedTradeCount : ℕ
deriving DecidableEq, Repr

/-- `services/analysis/stateAnalysis.js`, `analyzePsychologicalState`.
`trades.length === 0 || !plan` selects the no-data fallback
(STABLE / 50 / 50 / 0 trades); otherwise the most recent ten trades are
analyzed.  `plan.riskPercentPerTrade || 0` is the identity on a numeric
field. -/
def analyzePsychologicalState (trades : List Trade) (plan : Option Plan) : StateResult :=
  match plan with
  | none =>
      { state := PsychState.STABLE, confidence := 50, planAdherence := 50
        analyzedTradeCount := 0 }
  | some p =>
      if trades.length = 0 then
        { state := PsychState.STABLE, confidence := 50, planAdherence := 50
          analyzedTradeCount := 0 }
      else
        let analyzedTrades := trades.take 10
        let totalTrades := analyzedTrades.length
        let planRisk := p.riskPercentPerTrade
        let basicMetrics := calculateBasicMetrics analyzedTrades
        let dayMetrics := calculateDayMetrics analyzedTrades p
        let riskSpikeData := calculateRiskSpike analyzedTrades planRisk
        let riskBreaches := calculateRiskBreaches analyzedTrades planRisk
        let planAdherence :=
          calculatePlanAdherence riskBreaches basicMetrics.nearTargetHits dayMetrics totalTrades
        let state :=
          determineState basicMetrics dayMetrics riskSpikeData riskBreaches
            basicMetrics.avgRiskUsed planRisk totalTrades
        let confidence := calculateConfidence basicMetrics planAdherence planRisk totalTrades
        { state := state, confidence := confidence, planAdherence := planAdherence
          analyzedTradeCount := totalTrades }

/-- One emitted state-history point (`services/analysis/stateHistory.js`);
the `trigger` string and `context` object are presentation data and omitted. -/
structure HistoryPoint where
  timestamp : ℤ
  state : PsychState
  confidence : ℤ
deriving DecidableEq, Repr

/-- Summary block of `analyzeStateHistory`. -/
structure HistorySummary where
  totalChanges : ℕ
  mostCommonState : PsychState
  averageConfidence : ℤ
  volatility : ℚ
deriving DecidableEq, Repr

/-- Result of `analyzeStateHistory`. -/
structure HistoryResult where
  history : List HistoryPoint
  summary : HistorySummary
deriving DecidableEq, Repr

/-- Largest `k` in `[1, fuel]` with `k² ≤ n`, else `0` (a structurally
recursive integer square root, kept kernel-reducible for concrete inputs). -/
def sqrtFuel : ℕ → ℕ → ℕ
  | 0, _ => 0
  | (f+1), n => if (f+1)*(f+1) ≤ n then f+1 else sqrtFuel f n

/-- `⌊√n⌋`: the largest `k ≤ n` with `k² ≤ n`. -/
def natSqrtFloor (n : ℕ) : ℕ := sqrtFuel n n

/-- Exact value of `Math.round (Math.sqrt v)` for a rational `v ≥ 0`:
`⌊√v + 1/2⌋ = ⌊(2√v + 1)/2⌋ = ⌊(√(4v) + 1)/2⌋ = (⌊√(4v)⌋ + 1) / 2`, and
`⌊√x⌋ = ⌊√⌊x⌋⌋` since `k ≤ √x ↔ k² ≤ x ↔ k² ≤ ⌊x⌋` for integer `k`. -/
def roundSqrtQ (v : ℚ) : ℕ := (natSqrtFloor (Int.toNat ⌊4 * v⌋) + 1) / 2

/-- Loop body of `analyzeStateHistory`: walk the ascending trades; for each
trade classify the window of the last up-to-5 trades ending at it
(`sortedTrades.slice(Math.max(0, i - 4), i + 1)`, i.e. the reverse of the
first five of `t :: prevRev`), and emit a point when there is no previous
emitted point, the state label changed, or the confidence moved by more
than 15.  The loop guard `history.length < limit` is re-checked before each
iteration.  The JS `states` and `confidences` arrays receive a push exactly
when `history` does, so they are recovered below as maps over the points. -/
def historyGo (plan : Plan) (limit : ℕ) :
    List Trade → List Trade → Option (PsychState × ℤ) → List HistoryPoint → ℕ →
      List HistoryPoint × ℕ
  | _, [], _, pts, cnt => (pts, cnt)
  | prevRev, t :: rest, last, pts, cnt =>
    if limit ≤ pts.length then (pts, cnt)
    else
      let win := ((t :: prevRev).take 5).reverse
      let r := analyzePsychologicalState win (some plan)
      let emit :=
        match last with
        | none => true
        | some (s, c) => decide (s ≠ r.state) || decide (|c - r.confidence| > 15)
      if emit then
        historyGo plan limit (t :: prevRev) rest (some (r.state, r.confidence))
          (pts ++ [{ timestamp := t.entryTime, state := r.state, confidence := r.confidence }])
          (cnt + 1)
      else historyGo plan limit (t :: prevRev) rest last pts cnt

/-- First-seen-order list of distinct states, mirroring the insertion order
of the keys of the JS `stateCounts` object. -/
def firstSeenStates (states : List PsychState) : List PsychState :=
  states.foldl (fun acc s => if s ∈ acc then acc else acc ++ [s]) []

/-- `Object.keys(stateCounts).reduce((a, b) => stateCounts[a] > stateCounts[b] ? a : b)`
over the first-seen key order (`STABLE` when empty). -/
def mostCommonStateOf (states : List PsychState) : PsychState :=
  match firstSeenStates states with
  | [] => PsychState.STABLE
  | k :: ks => ks.foldl (fun a b => if states.count a > states.count b then a else b) k

/-- Mean squared deviation of a list of integers from a given integer
(`confidences.reduce((s, c) => s + (c - averageConfidence) ** 2, 0) / length`,
`0` when the list is empty). -/
def varAboutInt (a : ℤ) (cs : List ℤ) : ℚ :=
  if cs.length = 0 then 0
  else (cs.map (fun c => ((c - a : ℤ) : ℚ) ^ 2)).sum / cs.length

/-- `services/analysis/stateHistory.js`, `analyzeStateHistory`.  Trades are
sorted ascending by entry time (see `stateHistoryTradesAfter` for the
in-place effect of that sort), the classifier is re-run over sliding
windows, and the summary is computed from the emitted points.  `volatility`
is `Math.round((Math.sqrt(variance) / 100) * 100) / 100 = round(√variance)/100`
with the variance taken about the rounded `averageConfidence`. -/
def analyzeStateHistory (trades : List Trade) (plan : Option Plan) (limit : ℕ) :
    HistoryResult :=
  match plan with
  | none =>
      { history := []
        summary := { totalChanges := 0, mostCommonState := PsychState.STABLE
                     averageConfidence := 50, volatility := 0 } }
  | some p =>
      if trades.length = 0 then
        { history := []
          summary := { totalChanges := 0, mostCommonState := PsychState.STABLE
                       averageConfidence := 50, volatility := 0 } }
      else
        let sortedTrades := sortByEntry trades
        let res := historyGo p limit [] sortedTrades none [] 0
        let pts := res.1
        let states := pts.map (·.state)
        let confidences := pts.map (·.confidence)
        let averageConfidence :=
          if confidences.length > 0 then jsRound ((confidences.map (Int.cast)).sum / confidences.length)
          else 50
        let variance := varAboutInt averageConfidence confidences
        let volatility : ℚ := (roundSqrtQ variance : ℚ) / 100
        { history := pts.take limit
          summary := { totalChanges := res.2, mostCommonState := mostCommonStateOf states
                       averageConfidence := averageConfidence, volatility := volatility } }

/-- Contents of the caller's `trades` array after `analyzeStateHistory`
returns: `stateHistory.js` line 30 calls `trades.sort(...)`, and
`Array.prototype.sort` sorts the array **in place** (the guard branch for an
empty list or missing plan returns before the sort runs). -/
def stateHistoryTradesAfter (trades : List Trade) (plan : Option Plan) : List Trade :=
  match plan with
  | none => trades
  | some _ => if trades.length = 0 then trades else sortByEntry trades

/-- The specified volatility of `spec.md` §4.3: the exact standard deviation
of the emitted confidence values, divided by 100 and rounded to two
decimals, i.e. `round(√(Σ (c - mean)² / k))/100` with the *exact* mean. -/
def specVolatility (cs : List ℤ) : ℚ :=
  if cs.length = 0 then 0
  else
    let mean : ℚ := (cs.map (Int.cast)).sum / cs.length
    let variance := (cs.map (fun c => ((c : ℚ) - mean) ^ 2)).sum / cs.length
    (roundSqrtQ variance : ℚ) / 100

/-- A performance insight (`services/analysis/performanceInsights.js`);
`description` and `metric` are presentation data, the `type` and the
`title` identifying the selected branch are modelled. -/
structure Insight where
  type : InsightType
  title : String
deriving DecidableEq, Repr

/-- Result of `analyzePerformanceInsights`; the `period` passthrough string
and the `recommendations` projection of constructive descriptions are
omitted. -/
structure PerfResult where
  insights : List Insight
  winRate : ℤ
  avgRiskReward : ℚ
  planAdherence : ℤ
  tradesThisWeek : ℕ
deriving DecidableEq, Repr

/-- The early-exit count of `analyzePerformanceInsights`: trades exited
early or with a non-null target percentage below 50. -/
def insightEarlyExits (trades : List Trade) : ℕ :=
  (trades.filter (fun t =>
    t.exitedEarly ||
      match t.targetPercentAchieved with
      | some v => decide (v < 50)
      | none => false)).length

/-- `services/analysis/performanceInsights.js`, `analyzePerformanceInsights`.
`now` stands for `new Date()`; `startOfWeek` (`setDate(getDate() - 7)`) is
seven days, i.e. `604800000` ms, earlier.  The two leading `if/else if`
blocks may each push one insight, then one fallback of each type is appended
when the corresponding `insights.some` test fails, exactly as in the JS. -/
def analyzePerformanceInsights (now : ℤ) (trades : List Trade) (plan : Option Plan) :
    PerfResult :=
  match plan with
  | none =>
      { insights := [{ type := InsightType.CONSTRUCTIVE, title := "Add data to unlock insights" }]
        winRate := 0, avgRiskReward := 0, planAdherence := 0, tradesThisWeek := 0 }
  | some p =>
      if trades.length = 0 then
        { insights := [{ type := InsightType.CONSTRUCTIVE, title := "Add data to unlock insights" }]
          winRate := 0, avgRiskReward := 0, planAdherence := 0, tradesThisWeek := 0 }
      else
        let totalTrades := trades.length
        let wins := (trades.filter (fun t => decide (t.profitLoss > 0))).length
        let winRate : ℤ := jsRound ((wins : ℚ) / totalTrades * 100)
        let rrs := trades.filterMap (·.riskRewardAchieved)
        let avgRR : ℚ := if rrs.length > 0 then (jsRound (avgQ rrs * 100) : ℚ) / 100 else 0
        let riskBreachesRatio : ℚ :=
          ((trades.filter (fun t =>
            match t.riskPercentUsed with
            | some v => decide (v > p.riskPercentPerTrade * (3/2))
            | none => false)).length : ℚ) / totalTrades
        let outsideSessionRatio : ℚ :=
          ((trades.filter (isOutsideSession p)).length : ℚ) / totalTrades
        let planAdherence : ℤ :=
          jsRound ((1 - riskBreachesRatio + (1 - outsideSessionRatio)) / 2 * 100)
        let tradesThisWeek :=
          (trades.filter (fun t => decide (t.entryTime ≥ now - 604800000))).length
        let positivePart : List Insight :=
          if planAdherence ≥ 70 then [{ type := InsightType.POSITIVE, title := "Strong plan adherence" }]
          else if winRate ≥ 60 then [{ type := InsightType.POSITIVE, title := "Solid win rate" }]
          else []
        let earlyExits := insightEarlyExits trades
        let constructivePart : List Insight :=
          if (earlyExits : ℚ) / totalTrades ≥ 3/10 then
            [{ type := InsightType.CONSTRUCTIVE, title := "Exiting too early" }]
          else if planAdherence < 60 then
            [{ type := InsightType.CONSTRUCTIVE, title := "Improve plan adherence" }]
          else []
        let insights₁ := positivePart ++ constructivePart
        let insights₂ :=
          if insights₁.any (fun i => i.type = InsightType.POSITIVE) then insights₁
          else insights₁ ++ [{ type := InsightType.POSITIVE, title := "Consistent practice" }]
        let insights₃ :=
          if insights₂.any (fun i => i.type = InsightType.CONSTRUCTIVE) then insights₂
          else insights₂ ++ [{ type := InsightType.CONSTRUCTIVE, title := "Refine exits" }]
        { insights := insights₃, winRate := winRate, avgRiskReward := avgRR
          planAdherence := planAdherence, tradesThisWeek := tradesThisWeek }

/-- Result of `analyzeSessionForecast` (`services/analysis/sessionForecast.js`);
the recommendation strings are presentation data and omitted. -/
structure ForecastResult where
  session : String
  predictedBias : String
  riskLevel : RiskLevel
  forecast : String
  basedOnState : PsychState
deriving DecidableEq, Repr

/-- `services/analysis/sessionForecast.js`, `analyzeSessionForecast`.  The
risk level starts at `MEDIUM`; the loss-streak and risk-escalation
heuristics raise it to `HIGH`, and the session-drift heuristic re-assigns
`MEDIUM` only when it is not already `HIGH`.  The forecast label is
`NEGATIVE` for `HIGH`, `POSITIVE` for `LOW`, else `NEUTRAL`. -/
def analyzeSessionForecast (trades : List Trade) (session : Option String)
    (plan : Option Plan) (currentState : Option PsychState) : ForecastResult :=
  let upperSession := (session.getD "LONDON").toUpper
  let basedOnState := currentState.getD PsychState.STABLE
  match plan with
  | none =>
      { session := upperSession, predictedBias := "NEUTRAL", riskLevel := RiskLevel.MEDIUM
        forecast := "NEUTRAL", basedOnState := basedOnState }
  | some p =>
      if trades.length = 0 then
        { session := upperSession, predictedBias := "NEUTRAL", riskLevel := RiskLevel.MEDIUM
          forecast := "NEUTRAL", basedOnState := basedOnState }
      else
        let totalTrades := trades.length
        let risks := trades.filterMap (·.riskPercentUsed)
        let avgRisk := if risks.length > 0 then avgQ risks else p.riskPercentPerTrade
        let outsideSessionTrades := (trades.filter (isOutsideSession p)).length
        let recentLossStreak :=
          ((trades.take 3).all (fun t => decide (t.profitLoss ≤ 0))) ∧ totalTrades ≥ 3
        let bias₁ := if recentLossStreak then "Revenge trading risk" else "NEUTRAL"
        let risk₁ := if recentLossStreak then RiskLevel.HIGH else RiskLevel.MEDIUM
        let escalation := avgRisk > p.riskPercentPerTrade * (5/4)
        let bias₂ := if escalation then (if bias₁ = "NEUTRAL" then "Risk escalation tendency" else bias₁) else bias₁
        let risk₂ := if escalation then RiskLevel.HIGH else risk₁
        let drift := (outsideSessionTrades : ℚ) / totalTrades ≥ 2/10
        let bias₃ := if drift then (if bias₂ = "NEUTRAL" then "Session drift" else bias₂) else bias₂
        let risk₃ := if drift then (if risk₂ ≠ RiskLevel.HIGH then RiskLevel.MEDIUM else risk₂) else risk₂
        let forecast :=
          if risk₃ = RiskLevel.HIGH then "NEGATIVE"
          else if risk₃ = RiskLevel.LOW then "POSITIVE"
          else "NEUTRAL"
        { session := upperSession, predictedBias := bias₃, riskLevel := risk₃
          forecast := forecast, basedOnState := basedOnState }

/-- `plan?.riskPercentPerTrade || 1` (zentra modules): `1` when the plan is
missing or its per-trade risk is `0`. -/
def planRiskD : Option Plan → ℚ
  | none => 1
  | some p => if p.riskPercentPerTrade = 0 then 1 else p.riskPercentPerTrade

/-- `plan?.targetRiskRewardRatio || 1`. -/
def targetRRD : Option Plan → ℚ
  | none => 1
  | some p => if p.targetRiskRewardRatio = 0 then 1 else p.targetRiskRewardRatio

/-- `plan?.preferredSessions || []`. -/
def sessionsD : Option Plan → List Session
  | none => []
  | some p => p.preferredSessions

/-- Count of adjacent pairs of a list satisfying a predicate (the JS
`for (i = 1; ...) if (p(arr[i-1], arr[i])) count++` pattern). -/
def countAdjacent (p : Trade → Trade → Bool) : List Trade → ℕ
  | [] => 0
  | [_] => 0
  | a :: b :: rest => (if p a b then 1 else 0) + countAdjacent p (b :: rest)

/-- Does some adjacent pair of the list satisfy the predicate? -/
def anyAdjacent (p : Trade → Trade → Bool) : List Trade → Bool
  | [] => false
  | [_] => false
  | a :: b :: rest => p a b || anyAdjacent p (b :: rest)

/-- `services/zentra/planControl.js`, `isInAllowedSession`. -/
def isInAllowedSession (t : Trade) (preferredSessions : List Session) : Bool :=
  if preferredSessions.length = 0 then true else decide (t.session ∈ preferredSessions)

/-- `services/zentra/planControl.js`, `hasProperSlTp`: `stopLossHit === false
&& targetPercentAchieved >= 80` (a null target compares false), or a truthy
`riskRewardAchieved` at least the target ratio. -/
def hasProperSlTp (t : Trade) (targetRR : ℚ) : Bool :=
  (decide (t.stopLossHit = false) &&
    match t.targetPercentAchieved with
    | some v => decide (v ≥ 80)
    | none => false) ||
  (match t.riskRewardAchieved with
   | some v => decide (v ≠ 0) && decide (v ≥ targetRR)
   | none => false)

/-- `services/zentra/planControl.js`, `hasCorrectPositionSize` (both the risk
used and the plan risk must be truthy). -/
def hasCorrectPositionSize (t : Trade) (planRisk : ℚ) : Bool :=
  match t.riskPercentUsed with
  | none => false
  | some v =>
      decide (v ≠ 0) && decide (planRisk ≠ 0) &&
        decide (v ≥ planRisk * (9/10)) && decide (v ≤ planRisk * (11/10))

/-- `services/zentra/planControl.js`, `hasNotes`: a truthy note whose trim is
non-empty, i.e. the trimmed note is non-empty. -/
def hasNotes (t : Trade) : Bool := decide (t.notes.trim ≠ "")

/-- `services/zentra/planControl.js`, `hasTimingDiscipline`: at least 30
minutes since the previous trade's exit (the first trade always passes). -/
def hasTimingDiscipline (t : Trade) : Option Trade → Bool
  | none => true
  | some prev => decide (((t.entryTime - prev.exitTime : ℤ) : ℚ) / 60000 ≥ 30)

/-- `services/zentra/planControl.js`, `calculateTradeScore`: per-trade score
out of 100 (session 20, SL/TP 30, sizing 25, notes 10, timing 15).  The
`breakdown` array is presentation data and omitted. -/
def calculateTradeScore (t : Trade) (plan : Option Plan) (previousTrade : Option Trade) : ℕ :=
  let planRisk := planRiskD plan
  let targetRR := targetRRD plan
  let preferredSessions := sessionsD plan
  (if isInAllowedSession t preferredSessions then 20 else 0) +
    (if hasProperSlTp t targetRR then 30 else 0) +
    (if hasCorrectPositionSize t planRisk then 25 else 0) +
    (if hasNotes t then 10 else 0) +
    (if hasTimingDiscipline t previousTrade then 15 else 0)

/-- Per-trade scores of a list, each paired with its predecessor (the JS
`forEach` with `previousTrade = index > 0 ? arr[index-1] : null`). -/
def scoresWithPrev (plan : Option Plan) : Option Trade → List Trade → List ℕ
  | _, [] => []
  | prev, t :: ts => calculateTradeScore t plan prev :: scoresWithPrev plan (some t) ts

/-- Result of `calculatePlanControl`; the message string and the per-trade
score array are omitted. -/
structure PlanControlResult where
  percentage : ℤ
  tradesAnalyzed : ℕ
deriving DecidableEq, Repr

/-- `services/zentra/planControl.js`, `calculatePlanControl`: mean per-trade
score over the (up to five) most recent trades, evaluated in ascending
entry-time order. -/
def calculatePlanControl (trades : List Trade) (plan : Option Plan) : PlanControlResult :=
  if trades.length = 0 then { percentage := 0, tradesAnalyzed := 0 }
  else
    let sortedTrades := sortByEntry (trades.take 5)
    let scores := scoresWithPrev plan none sortedTrades
    { percentage := jsRound ((scores.sum : ℚ) / sortedTrades.length)
      tradesAnalyzed := sortedTrades.length }

/-- `services/zentra/mentalBattery.js` (planControl module), `isImpulsiveReentry`. -/
def isImpulsiveReentry (t prev : Trade) : Bool :=
  let diffMinutes : ℚ := ((t.entryTime - prev.exitTime : ℤ) : ℚ) / 60000
  decide (diffMinutes < 30) && decide (diffMinutes ≥ 0)

/-- `isOversizedTrade`: truthy risk above `1.3 ×` a truthy plan risk. -/
def isOversizedTrade (t : Trade) (planRisk : ℚ) : Bool :=
  match t.riskPercentUsed with
  | none => false
  | some v => decide (v ≠ 0) && decide (planRisk ≠ 0) && decide (v > planRisk * (13/10))

/-- `isLargeLoss`: loss below `-2 ×` a truthy plan risk. -/
def isLargeLoss (t : Trade) (planRisk : ℚ) : Bool :=
  decide (planRisk ≠ 0) && decide (t.profitLoss < -2 * planRisk)

/-- Window size used by `detectClusters` at one start position: the trade
itself plus the following trades entered within two hours of it (the inner
loop breaks at the first one outside the window). -/
def clusterWindowSize (t : Trade) (rest : List Trade) : ℕ :=
  1 + (rest.takeWhile (fun u => decide (u.entryTime - t.entryTime ≤ 7200000))).length

/-- Number of start positions (with at least three trades remaining) whose
two-hour window holds three or more trades. -/
def clusterStarts : List Trade → ℕ
  | [] => 0
  | t :: rest =>
      (if rest.length ≥ 2 ∧ clusterWindowSize t rest ≥ 3 then 1 else 0) + clusterStarts rest

/-- `detectClusters`: clusters of three trades within two hours, counted per
start position and capped at 2 (the JS breaks out of the loop at 2, which
equals taking the minimum). -/
def detectClusters (trades : List Trade) : ℕ :=
  if trades.length < 3 then 0 else min (clusterStarts (sortByEntry trades)) 2

/-- `detectDisciplinedPauses`: gaps of at least two hours between exit and
the next entry, capped at 3 (the JS breaks at 3). -/
def detectDisciplinedPauses (trades : List Trade) : ℕ :=
  if trades.length < 2 then 0
  else
    min (countAdjacent (fun prev t => decide (t.entryTime - prev.exitTime ≥ 7200000))
      (sortByEntry trades)) 3

/-- `hasStableRiskUsage`: every trade has a truthy risk within ±10% of a
truthy plan risk. -/
def hasStableRiskUsage (trades : List Trade) (planRisk : ℚ) : Bool :=
  if trades.length = 0 ∨ planRisk = 0 then false
  else
    trades.all (fun t =>
      match t.riskPercentUsed with
      | none => false
      | some v => decide (v ≠ 0) && decide (v ≥ planRisk * (9/10)) && decide (v ≤ planRisk * (11/10)))

/-- One hesitation flag of `hasEmotionalVolatility`: early exit or a truthy
target percentage below 60. -/
def hesitationFlag (t : Trade) : Bool :=
  t.exitedEarly ||
    match t.targetPercentAchieved with
    | some v => decide (v ≠ 0) && decide (v < 60)
    | none => false

/-- `hasEmotionalVolatility`: some impulsive re-entry and some hesitation
flag occur in the same (sorted) list. -/
def hasEmotionalVolatility (trades : List Trade) : Bool :=
  if trades.length < 2 then false
  else
    let sortedTrades := sortByEntry trades
    (sortedTrades.any hesitationFlag) && anyAdjacent (fun prev t => isImpulsiveReentry t prev) sortedTrades

/-- Result of `calculateMentalBattery`; the status string is kept, messages,
drain/recharge factor arrays and the behavioral interpretation are
presentation data and omitted. -/
structure BatteryResult where
  battery : ℤ
  status : String
deriving DecidableEq, Repr

/-- `services/zentra/planControl.js`, `calculateMentalBattery`: start at 100,
subtract 15 per impulsive re-entry, 10 per oversized trade, 8 per cluster
(max 2), 20 per large loss, 12 once for mixed impulsive/hesitant behavior;
add 5 per disciplined pause (max +15), 8 once for plan control ≥ 80, 5 once
for stable risk; clamp to [0, 100] (`Math.round` on the resulting integer is
the identity). -/
def calculateMentalBattery (todayTrades : List Trade) (plan : Option Plan)
    (planControlPercent : ℚ) : BatteryResult :=
  if todayTrades.length = 0 then { battery := 100, status := "optimal" }
  else
    let planRisk := planRiskD plan
    let sortedTrades := sortByEntry todayTrades
    let impulsiveCount := countAdjacent (fun prev t => isImpulsiveReentry t prev) sortedTrades
    let oversizedCount := (sortedTrades.filter (fun t => isOversizedTrade t planRisk)).length
    let clusterCount := detectClusters sortedTrades
    let largeLossCount := (sortedTrades.filter (fun t => isLargeLoss t planRisk)).length
    let volatilityDrain := if hasEmotionalVolatility sortedTrades then 12 else 0
    let pauseCount := detectDisciplinedPauses sortedTrades
    let pauseRecharge := min (pauseCount * 5) 15
    let complianceRecharge := if planControlPercent ≥ 80 then 8 else 0
    let stableRecharge := if hasStableRiskUsage sortedTrades planRisk then 5 else 0
    let battery : ℤ :=
      100 - 15 * impulsiveCount - 10 * oversizedCount - 8 * clusterCount -
        20 * largeLossCount - volatilityDrain + pauseRecharge + complianceRecharge +
        stableRecharge
    let battery := max 0 (min 100 battery)
    { battery := battery
      status := if battery ≥ 80 then "optimal" else if battery ≥ 50 then "strained" else "high_risk" }

/-- Exact value of `⌊a + 1/2 + √w⌋` for rational `a` and `w ≥ 0`, i.e.
`Math.round(a + Math.sqrt w)`.  For integer `n`, `n ≤ a + 1/2 + √w` iff
`n ≤ a + 1/2` or `(n - a - 1/2)² ≤ w`.  The floor lies between
`base := ⌊a + 1/2⌋ + ⌊√⌊w⌋⌋` (since `√w ≥ ⌊√⌊w⌋⌋`) and
`base + 3` (since `a + 1/2 < ⌊a + 1/2⌋ + 1` and `√w < ⌊√⌊w⌋⌋ + 2`),
so the first satisfying candidate from `base + 3` downward is the floor. -/
def jsRoundPlusSqrt (a w : ℚ) : ℤ :=
  let c := a + 1/2
  let ok : ℤ → Bool := fun n => decide ((n : ℚ) ≤ c) || decide (((n : ℚ) - c) ^ 2 ≤ w)
  let base : ℤ := ⌊c⌋ + (natSqrtFloor (Int.toNat ⌊w⌋) : ℤ)
  if ok (base + 3) then base + 3
  else if ok (base + 2) then base + 2
  else if ok (base + 1) then base + 1
  else base

/-- Exact value of `⌊a + 1/2 - √w⌋` for rational `a` and `w ≥ 0`, i.e.
`Math.round(a - Math.sqrt w)`.  For integer `n`, `n ≤ a + 1/2 - √w` iff
`√w ≤ a + 1/2 - n` iff `0 ≤ a + 1/2 - n` and `w ≤ (a + 1/2 - n)²`.  The
floor lies between `base := ⌊a + 1/2⌋ - (⌊√⌈w⌉⌋ + 1)` (since
`√w ≤ ⌊√⌈w⌉⌋ + 1`) and `base + 3`, so the first satisfying candidate
from `base + 3` downward is the floor. -/
def jsRoundMinusSqrt (a w : ℚ) : ℤ :=
  let c := a + 1/2
  let ok : ℤ → Bool := fun n => decide ((0:ℚ) ≤ c - n) && decide (w ≤ (c - (n : ℚ)) ^ 2)
  let base : ℤ := ⌊c⌋ - ((natSqrtFloor (Int.toNat ⌈w⌉) : ℤ) + 1)
  if ok (base + 3) then base + 3
  else if ok (base + 2) then base + 2
  else if ok (base + 1) then base + 1
  else base

/-- Exact value of `Math.round (b * Math.sqrt v)` for rational `b` and
`v ≥ 0`: `b√v = √(b²v)` when `b ≥ 0` and `-√(b²v)` otherwise. -/
def jsRoundMulSqrt (b v : ℚ) : ℤ :=
  if b ≥ 0 then jsRoundPlusSqrt 0 (b ^ 2 * v) else jsRoundMinusSqrt 0 (b ^ 2 * v)

/-- Population variance of a list of rationals about its mean (the
`reduce((sum, val) => sum + (val - avg) ** 2, 0) / length` pattern; callers
guard against the empty list). -/
def popVariance (l : List ℚ) : ℚ :=
  (l.map (fun v => (v - avgQ l) ^ 2)).sum / l.length

/-- The list of truthy `riskPercentUsed` values,
`trades.filter((t) => t.riskPercentUsed).map((t) => t.riskPercentUsed)`. -/
def truthyRisks (trades : List Trade) : List ℚ :=
  trades.filterMap (fun t =>
    match t.riskPercentUsed with
    | some v => if v ≠ 0 then some v else none
    | none => none)

/-- `services/zentra/psychologicalRadar.js`, `calculateDiscipline`: plan
control percentage, +10 without risk breaches (truthy risk > 1.3 × plan),
+5 without session violations, capped at 100. -/
def calculateDiscipline (trades : List Trade) (plan : Option Plan)
    (planControlPercent : ℚ) : ℤ :=
  let planRisk := planRiskD plan
  let preferredSessions := sessionsD plan
  let hasRiskBreach := trades.any (fun t =>
    match t.riskPercentUsed with
    | some v => decide (v ≠ 0) && decide (v > planRisk * (13/10))
    | none => false)
  let hasSessionViolation :=
    decide (preferredSessions.length > 0) &&
      trades.any (fun t => decide (t.session ∉ preferredSessions))
  let score := planControlPercent + (if hasRiskBreach then 0 else 10) +
    (if hasSessionViolation then 0 else 5)
  min 100 (jsRound score)

/-- `calculateImpulseControl`: `100 - (impulsiveCount / 5) * 100`, floored at
0; perfect (100) with fewer than two trades. -/
def calculateImpulseControl (trades : List Trade) : ℤ :=
  if trades.length < 2 then 100
  else
    let sortedTrades := sortByEntry trades
    let impulsiveCount := countAdjacent (fun prev t => isImpulsiveReentry t prev) sortedTrades
    max 0 (jsRound (100 - ((impulsiveCount : ℚ) / 5) * 100))

/-- `calculateAggression`: `(avg truthy risk / planRisk) * 50`, +20 for any
truthy risk above 1.5 × plan, +15 for a revenge pattern (loss followed by a
truthy risk above 1.3 × plan), capped at 100. -/
def calculateAggression (trades : List Trade) (plan : Option Plan) : ℤ :=
  if trades.length = 0 then 0
  else
    let planRisk := planRiskD plan
    let risksUsed := truthyRisks trades
    let base₀ : ℚ := if risksUsed.length > 0 then avgQ risksUsed / planRisk * 50 else 0
    let hasHighRisk := trades.any (fun t =>
      match t.riskPercentUsed with
      | some v => decide (v ≠ 0) && decide (v > planRisk * (3/2))
      | none => false)
    let hasRevengeTrade :=
      anyAdjacent (fun prev t =>
        decide (prev.profitLoss < 0) &&
          match t.riskPercentUsed with
          | some v => decide (v ≠ 0) && decide (v > planRisk * (13/10))
          | none => false) (sortByEntry trades)
    let base := base₀ + (if hasHighRisk then 20 else 0) + (if hasRevengeTrade then 15 else 0)
    min 100 (jsRound base)

/-- `calculateHesitation`: `(early-exit count / 5) * 100`, +20 for a winning
trade with truthy target below 60, +15 for a gap of over four hours between
trades, capped at 100. -/
def calculateHesitation (trades : List Trade) : ℤ :=
  if trades.length = 0 then 0
  else
    let hesitationCount := (trades.filter (·.exitedEarly)).length
    let hasLowTargetWins := trades.any (fun t =>
      decide (t.profitLoss > 0) &&
        match t.targetPercentAchieved with
        | some v => decide (v ≠ 0) && decide (v < 60)
        | none => false)
    let hasLongGap :=
      anyAdjacent (fun prev t =>
        decide (((t.entryTime - prev.exitTime : ℤ) : ℚ) / 3600000 > 4)) (sortByEntry trades)
    let base : ℚ := ((hesitationCount : ℚ) / 5) * 100 +
      (if hasLowTargetWins then 20 else 0) + (if hasLongGap then 15 else 0)
    min 100 (jsRound base)

/-- `calculateConsistency`: `100 - (stdDev of truthy risks / their mean) * 100`
(variability 0 with at most one truthy risk or nonpositive mean), +10 when
all trades sit in the preferred sessions (or none are declared), +5 for
stable timing over more than one trade, rounded and clamped to [0, 100].
`Math.round (C - stdDev/avg*100)` is evaluated exactly as
`⌊C + 1/2 - √((100/avg)² · variance)⌋`. -/
def calculateConsistency (trades : List Trade) (plan : Option Plan) : ℤ :=
  if trades.length = 0 then 100
  else
    let preferredSessions := sessionsD plan
    let risksUsed := truthyRisks trades
    let allInPreferred :=
      decide (preferredSessions.length = 0) ||
        trades.all (fun t => decide (t.session ∈ preferredSessions))
    let stableTiming :=
      !(anyAdjacent (fun prev t =>
        let diffHours : ℚ := ((t.entryTime - prev.exitTime : ℤ) : ℚ) / 3600000
        decide (diffHours < 1/2) || decide (diffHours > 6)) (sortByEntry trades))
    let bonus : ℚ := (if allInPreferred then 10 else 0) +
      (if stableTiming ∧ trades.length > 1 then 5 else 0)
    let rounded : ℤ :=
      if risksUsed.length > 1 ∧ avgQ risksUsed > 0 then
        jsRoundMinusSqrt (100 + bonus) ((100 / avgQ risksUsed) ^ 2 * popVariance risksUsed)
      else jsRound (100 + bonus)
    max 0 (min 100 rounded)

/-- `calculateEmotionalVolatility`: `|aggression - hesitation| / 2`, +20 when
both exceed 60, capped at 100. -/
def calculateEmotionalVolatility (aggressionScore hesitationScore : ℤ) : ℤ :=
  let volatility : ℚ := |((aggressionScore - hesitationScore : ℤ) : ℚ)| / 2 +
    (if aggressionScore > 60 ∧ hesitationScore > 60 then 20 else 0)
  min 100 (jsRound volatility)

/-- The six radar traits. -/
structure RadarTraits where
  discipline : ℤ
  impulseControl : ℤ
  aggression : ℤ
  hesitation : ℤ
  consistency : ℤ
  emotionalVolatility : ℤ
deriving DecidableEq, Repr

/-- `services/zentra/psychologicalRadar.js`, `calculatePsychologicalRadar`
(the trait record; `tradesAnalyzed` and the message are presentation data).
Traits are computed over the five most recent trades, with the plan-control
percentage feeding discipline. -/
def calculatePsychologicalRadar (trades : List Trade) (plan : Option Plan) : RadarTraits :=
  if trades.length = 0 then
    { discipline := 0, impulseControl := 100, aggression := 0, hesitation := 0
      consistency := 100, emotionalVolatility := 0 }
  else
    let recentTrades := trades.take 5
    let planControlPercent := (calculatePlanControl recentTrades plan).percentage
    let aggression := calculateAggression recentTrades plan
    let hesitation := calculateHesitation recentTrades
    { discipline := calculateDiscipline recentTrades plan (planControlPercent : ℚ)
      impulseControl := calculateImpulseControl recentTrades
      aggression := aggression
      hesitation := hesitation
      consistency := calculateConsistency recentTrades plan
      emotionalVolatility := calculateEmotionalVolatility aggression hesitation }

/-- `services/zentra/behaviorHeatmap.js`, `calculateWinLossExpectancy`:
`(wins - losses) / total * 50 + 50`, clamped to [0, 100]; 50 when empty. -/
def calculateWinLossExpectancy (trades : List Trade) : ℚ :=
  if trades.length = 0 then 50
  else
    let wins := (trades.filter (fun t => decide (t.profitLoss > 0))).length
    let losses := (trades.filter (fun t => decide (t.profitLoss < 0))).length
    max 0 (min 100 (((wins : ℚ) - (losses : ℚ)) / trades.length * 50 + 50))

/-- `calculateWindowPlanCompliance`: mean per-trade plan-control score over
the window trades in ascending order; 50 when empty. -/
def calculateWindowPlanCompliance (trades : List Trade) (plan : Option Plan) : ℤ :=
  if trades.length = 0 then 50
  else
    let sortedTrades := sortByEntry trades
    jsRound (((scoresWithPrev plan none sortedTrades).sum : ℚ) / trades.length)

/-- `calculateImpulsivenessPenalty`: 15 per impulsive re-entry, capped at 100. -/
def calculateImpulsivenessPenalty (trades : List Trade) : ℕ :=
  if trades.length < 2 then 0
  else
    min ((countAdjacent (fun prev t => isImpulsiveReentry t prev) (sortByEntry trades)) * 15) 100

/-- `calculateHesitationPenalty`: 10 per early exit or winning trade with a
truthy target below 60, capped at 100. -/
def calculateHesitationPenalty (trades : List Trade) : ℕ :=
  if trades.length = 0 then 0
  else
    let hesitationCount :=
      (trades.filter (fun t =>
        t.exitedEarly ||
          (match t.targetPercentAchieved with
           | some v => decide (v ≠ 0) && decide (v < 60)
           | none => false) && decide (t.profitLoss > 0))).length
    min (hesitationCount * 10) 100

/-- `calculateRiskDeviationPenalty`: `Math.round(Math.min((stdDev of truthy
risks / planRisk) * 50, 100))`; rounding commutes with `min (·) 100`, so this
is `min (round((50/planRisk)·√variance)) 100`. -/
def calculateRiskDeviationPenalty (trades : List Trade) (planRisk : ℚ) : ℤ :=
  if trades.length = 0 ∨ planRisk = 0 then 0
  else
    let risksUsed := truthyRisks trades
    if risksUsed.length = 0 then 0
    else min (jsRoundMulSqrt (50 / planRisk) (popVariance risksUsed)) 100

/-- `calculateVolatilityPenalty`: 20 when both an oversized (> 1.3 × plan)
and an undersized (< 0.7 × plan) truthy risk occur in the window. -/
def calculateVolatilityPenalty (trades : List Trade) (planRisk : ℚ) : ℕ :=
  if trades.length < 2 ∨ planRisk = 0 then 0
  else
    let hasOversized := trades.any (fun t =>
      match t.riskPercentUsed with
      | some v => decide (v ≠ 0) && decide (v > planRisk * (13/10))
      | none => false)
    let hasUndersized := trades.any (fun t =>
      match t.riskPercentUsed with
      | some v => decide (v ≠ 0) && decide (v < planRisk * (7/10))
      | none => false)
    if hasOversized && hasUndersized then 20 else 0

/-- `calculateFrequencyPenalty`: `(count - 3) * 5` beyond three trades,
capped at 25. -/
def calculateFrequencyPenalty (trades : List Trade) : ℕ :=
  if trades.length ≤ 3 then 0 else min ((trades.length - 3) * 5) 25

/-- `services/zentra/behaviorHeatmap.js`, `calculateWindowScore` (the score;
the rounded per-metric echo record is presentation data): a weighted sum of
the seven sub-signals, clamped to [0, 100] and rounded. -/
def calculateWindowScore (trades : List Trade) (plan : Option Plan) : ℤ :=
  let planRisk := planRiskD plan
  let winLoss := calculateWinLossExpectancy trades
  let planCompliance := calculateWindowPlanCompliance trades plan
  let impulsiveness := calculateImpulsivenessPenalty trades
  let hesitation := calculateHesitationPenalty trades
  let riskDev := calculateRiskDeviationPenalty trades planRisk
  let volatility := calculateVolatilityPenalty trades planRisk
  let frequency := calculateFrequencyPenalty trades
  let score : ℚ :=
    winLoss * (2/10) + (planCompliance : ℚ) * (3/10) +
      (100 - (impulsiveness : ℚ)) * (15/100) + (100 - (hesitation : ℚ)) * (15/100) +
      (100 - (riskDev : ℚ)) * (1/10) + (100 - (volatility : ℚ)) * (5/100) +
      (100 - (frequency : ℚ)) * (5/100)
  jsRound (max 0 (min 100 score))

/-- Breathwork trigger kinds (`services/zentra/breathwork.js`). -/
inductive TriggerType where
  | high_volatility
  | low_battery
  | impulsive_trades
  | battery_drop
deriving DecidableEq, Repr

/-- `services/zentra/breathwork.js` (consistencyTrend module),
`countImpulsiveTradesLastHour`: impulsive re-entries among the trades
entered within the hour before `now` (`Date.now()`). -/
def countImpulsiveTradesLastHour (now : ℤ) (trades : List Trade) : ℕ :=
  if trades.length < 2 then 0
  else
    let sortedTrades :=
      sortByEntry (trades.filter (fun t => decide (t.entryTime ≥ now - 3600000)))
    if sortedTrades.length < 2 then 0
    else countAdjacent (fun prev t => isImpulsiveReentry t prev) sortedTrades

/-- `calculateBatteryDrop`: the (nonnegative) drop from the session-start
battery to the current one. -/
def calculateBatteryDrop (startBattery currentBattery : ℚ) : ℚ :=
  max 0 (startBattery - currentBattery)

/-- Urgency block of the breathwork suggestion (`factors` echoes the trigger
list and is omitted). -/
structure Urgency where
  level : String
  score : ℤ
deriving DecidableEq, Repr

/-- `services/zentra/breathwork.js`, `calculateUrgency`: 20 per trigger, +30
for battery below 30 (else +15 below 40), +25 for volatility above 80 (else
+10 above 70), +20 for two or more severe triggers; banded at 70 (high) and
40 (medium), score capped at 100. -/
def calculateUrgency (triggers : List TriggerType) (mentalBattery emotionalVolatility : ℚ) :
    Urgency :=
  if triggers.length = 0 then { level := "none", score := 0 }
  else
    let urgencyScore : ℤ :=
      (triggers.length : ℤ) * 20 +
        (if mentalBattery < 30 then 30 else if mentalBattery < 40 then 15 else 0) +
        (if emotionalVolatility > 80 then 25 else if emotionalVolatility > 70 then 10 else 0) +
        (if (triggers.filter (fun t =>
              t = TriggerType.low_battery ∨ t = TriggerType.high_volatility ∨
                t = TriggerType.battery_drop)).length ≥ 2 then 20 else 0)
    { level := if urgencyScore ≥ 70 then "high" else if urgencyScore ≥ 40 then "medium" else "low"
      score := min 100 urgencyScore }

/-- Result of `shouldSuggestBreathwork`; the message and recommended
exercise record are presentation data and omitted. -/
structure BreathworkResult where
  shouldSuggest : Bool
  triggers : List TriggerType
  urgency : Urgency
deriving DecidableEq, Repr

/-- `services/zentra/breathwork.js`, `shouldSuggestBreathwork`: fires on any
of volatility > 70, battery < 40, three or more impulsive trades in the
trailing hour, or a battery drop above 30 from the session start (the
parameter defaults to 100, and `zentra.service.js` always passes 100).
`shouldSuggest` is set in each trigger branch, hence equals the trigger
list being non-empty; triggers are pushed in the order tested. -/
def shouldSuggestBreathwork (now : ℤ) (mentalBattery emotionalVolatility : ℚ)
    (todayTrades : List Trade) (sessionStartBattery : ℚ := 100) : BreathworkResult :=
  let volTrigger := if emotionalVolatility > 70 then [TriggerType.high_volatility] else []
  let batteryTrigger := if mentalBattery < 40 then [TriggerType.low_battery] else []
  let impulsiveTrigger :=
    if countImpulsiveTradesLastHour now todayTrades ≥ 3 then [TriggerType.impulsive_trades] else []
  let dropTrigger :=
    if calculateBatteryDrop sessionStartBattery mentalBattery > 30 then
      [TriggerType.battery_drop]
    else []
  let triggers := volTrigger ++ batteryTrigger ++ impulsiveTrigger ++ dropTrigger
  { shouldSuggest := decide (triggers ≠ [])
    triggers := triggers
    urgency := calculateUrgency triggers mentalBattery emotionalVolatility }

/-- The aggression trait as the specification words it: identical to
`calculateAggression`, except that the averaged subset is the set of trades
whose `riskPercentUsed` is **non-null** ("every aggregate over a nullable
field excludes null entries"), rather than the source's truthiness filter
which also drops a legal value of exactly `0`. -/
def calculateAggressionNonNull (trades : List Trade) (plan : Option Plan) : ℤ :=
  if trades.length = 0 then 0
  else
    let planRisk := planRiskD plan
    let risksUsed := trades.filterMap (·.riskPercentUsed)
    let base₀ : ℚ := if risksUsed.length > 0 then avgQ risksUsed / planRisk * 50 else 0
    let hasHighRisk := trades.any (fun t =>
      match t.riskPercentUsed with
      | some v => decide (v ≠ 0) && decide (v > planRisk * (3/2))
      | none => false)
    let hasRevengeTrade :=
      anyAdjacent (fun prev t =>
        decide (prev.profitLoss < 0) &&
          match t.riskPercentUsed with
          | some v => decide (v ≠ 0) && decide (v > planRisk * (13/10))
          | none => false) (sortByEntry trades)
    let base := base₀ + (if hasHighRisk then 20 else 0) + (if hasRevengeTrade then 15 else 0)
    min 100 (jsRound base)

/-- Two LONDON wins on the same day with risks `0` and `2` against a plan
risk of `2`: the spec's non-null rule averages to `1`, the radar's truthy
filter averages to `2`. -/
def c1Trades : List Trade :=
  [{ entryTime := 3600000, exitTime := 5400000, profitLoss := 1,
     riskPercentUsed := some 0, session := Session.LONDON },
   { entryTime := 7200000, exitTime := 9000000, profitLoss := 1,
     riskPercentUsed := some 2, session := Session.LONDON }]

/-- Plan used by the zero-risk aggression example. -/
def c1Plan : Plan :=
  { maxTradesPerDay := 10, riskPercentPerTrade := 2, preferredSessions := [Session.LONDON] }

/-- The spec's §8 example list: risks `[2.0, null, 1.5, null, 2.5]`. -/
def specRiskExampleTrades : List Trade :=
  [{ entryTime := 0, exitTime := 1800000, profitLoss := 1,
     riskPercentUsed := some 2, session := Session.LONDON },
   { entryTime := 3600000, exitTime := 5400000, profitLoss := 1,
     riskPercentUsed := none, session := Session.LONDON },
   { entryTime := 7200000, exitTime := 9000000, profitLoss := 1,
     riskPercentUsed := some (3/2), session := Session.LONDON },
   { entryTime := 10800000, exitTime := 12600000, profitLoss := 1,
     riskPercentUsed := none, session := Session.LONDON },
   { entryTime := 14400000, exitTime := 16200000, profitLoss := 1,
     riskPercentUsed := some (5/2), session := Session.LONDON }]

/-- Four same-day LONDON trades at risk 4 against plan risk 2 and a one-trade
daily cap: the day both exceeds the cap (overextension) and has a 100% risk
breach rate (aggression). -/
def c2Trades : List Trade :=
  [{ entryTime := 3600000, exitTime := 4200000, profitLoss := 1,
     riskPercentUsed := some 4, session := Session.LONDON },
   { entryTime := 7200000, exitTime := 7800000, profitLoss := -1,
     riskPercentUsed := some 4, session := Session.LONDON },
   { entryTime := 10800000, exitTime := 11400000, profitLoss := 1,
     riskPercentUsed := some 4, session := Session.LONDON },
   { entryTime := 14400000, exitTime := 15000000, profitLoss := -1,
     riskPercentUsed := some 4, session := Session.LONDON }]

/-- Plan for the double-condition classifier input. -/
def c2Plan : Plan :=
  { maxTradesPerDay := 1, riskPercentPerTrade := 2, preferredSessions := [Session.LONDON] }

/-- A plan used by the small-window confidence examples. -/
def c3Plan : Plan :=
  { maxTradesPerDay := 5, riskPercentPerTrade := 2, preferredSessions := [Session.LONDON] }

/-- A two-trade window (fewer than five trades). -/
def c3Trades : List Trade :=
  [{ entryTime := 3600000, exitTime := 5400000, profitLoss := 1,
     riskPercentUsed := some 2, targetPercentAchieved := some 90, session := Session.LONDON },
   { entryTime := 10800000, exitTime := 12600000, profitLoss := -1,
     riskPercentUsed := some 2, targetPercentAchieved := some 20, session := Session.LONDON }]

/-- The spec's §8 classifier example, most recent first: 10 trades over 6
UTC days, 6 wins, risks summing to 18 (average 1.8), last risk 2.6, second
2.4 (both above `1.3 × 1.8 = 2.34` and `1.5 × 1.5 = 2.25`), all
risk/reward values 1.4, targets 80 on wins and 50 on losses (median 80, 6
near-target hits), two days with an ASIA trade, no day above five trades. -/
def c4Trades : List Trade :=
  [{ entryTime := 5*86400000 + 10*3600000, exitTime := 5*86400000 + 10*3600000 + 1800000,
     profitLoss := 1, riskPercentUsed := some (13/5), riskRewardAchieved := some (7/5),
     targetPercentAchieved := some 80, session := Session.LONDON },
   { entryTime := 5*86400000 + 8*3600000, exitTime := 5*86400000 + 8*3600000 + 1800000,
     profitLoss := 1, riskPercentUsed := some (12/5), riskRewardAchieved := some (7/5),
     targetPercentAchieved := some 80, session := Session.LONDON },
   { entryTime := 4*86400000 + 9*3600000, exitTime := 4*86400000 + 9*3600000 + 1800000,
     profitLoss := 1, riskPercentUsed := some 1, riskRewardAchieved := some (7/5),
     targetPercentAchieved := some 80, session := Session.ASIA },
   { entryTime := 3*86400000 + 9*3600000, exitTime := 3*86400000 + 9*3600000 + 1800000,
     profitLoss := 1, riskPercentUsed := some 2, riskRewardAchieved := some (7/5),
     targetPercentAchieved := some 80, session := Session.LONDON },
   { entryTime := 3*86400000 + 7*3600000, exitTime := 3*86400000 + 7*3600000 + 1800000,
     profitLoss := -1, riskPercentUsed := some (3/2), riskRewardAchieved := some (7/5),
     targetPercentAchieved := some 50, session := Session.LONDON },
   { entryTime := 2*86400000 + 9*3600000, exitTime := 2*86400000 + 9*3600000 + 1800000,
     profitLoss := 1, riskPercentUsed := some (3/2), riskRewardAchieved := some (7/5),
     targetPercentAchieved := some 80, session := Session.ASIA },
   { entryTime := 2*86400000 + 7*3600000, exitTime := 2*86400000 + 7*3600000 + 1800000,
     profitLoss := -1, riskPercentUsed := some (3/2), riskRewardAchieved := some (7/5),
     targetPercentAchieved := some 50, session := Session.LONDON },
   { entryTime := 1*86400000 + 9*3600000, exitTime := 1*86400000 + 9*3600000 + 1800000,
     profitLoss := -1, riskPercentUsed := some 2, riskRewardAchieved := some (7/5),
     targetPercentAchieved := some 50, session := Session.LONDON },
   { entryTime := 9*3600000, exitTime := 9*3600000 + 1800000,
     profitLoss := 1, riskPercentUsed := some 2, riskRewardAchieved := some (7/5),
     targetPercentAchieved := some 80, session := Session.LONDON },
   { entryTime := 7*3600000, exitTime := 7*3600000 + 1800000,
     profitLoss := -1, riskPercentUsed := some (3/2), riskRewardAchieved := some (7/5),
     targetPercentAchieved := some 50, session := Session.LONDON }]

/-- The spec's example plan: risk 1.5, five trades per day, LONDON/NY. -/
def c4Plan : Plan :=
  { maxTradesPerDay := 5, riskPercentPerTrade := 3/2
    preferredSessions := [Session.LONDON, Session.NY] }

/-- Plan used by the performance-insights examples. -/
def c5Plan : Plan :=
  { maxTradesPerDay := 5, riskPercentPerTrade := 2, preferredSessions := [Session.LONDON] }

/-- A single winning in-session trade. -/
def c5Trades : List Trade :=
  [{ entryTime := 3600000, exitTime := 5400000, profitLoss := 1,
     riskPercentUsed := some 2, targetPercentAchieved := some 90, session := Session.LONDON }]

/-- Reference wall-clock instant for the breathwork example. -/
def c6Now : ℤ := 360000000

/-- Two trades inside the trailing hour whose second entry comes ten minutes
after the first exit: exactly one impulsive re-entry in the last hour. -/
def c6Trades : List Trade :=
  [{ entryTime := c6Now - 3000000, exitTime := c6Now - 2400000, profitLoss := 1,
     riskPercentUsed := some 2, session := Session.LONDON },
   { entryTime := c6Now - 1800000, exitTime := c6Now - 600000, profitLoss := 1,
     riskPercentUsed := some 2, session := Session.LONDON }]

/-- A one-trade list with a nonnegative risk, for instantiating the range
invariants. -/
def c7Trades : List Trade :=
  [{ entryTime := 3600000, exitTime := 5400000, profitLoss := 1,
     riskPercentUsed := some 1, targetPercentAchieved := some 90, session := Session.LONDON }]

/-- A schema-valid plan with nonnegative risk. -/
def c7Plan : Plan :=
  { maxTradesPerDay := 5, riskPercentPerTrade := 1, preferredSessions := [Session.LONDON] }

/-- Three same-day trades (plan risk 2, two trades per day, LONDON): the
sliding windows classify HESITANT (confidence 40), AGGRESSIVE (40) and
OVEREXTENDED (39), all three points are emitted, and the rounded mean 40
inflates the code's variance to `1/3` while the exact variance is `2/9`. -/
def c8Trades : List Trade :=
  [{ entryTime := 86400000 + 3*3600000, exitTime := 86400000 + 3*3600000 + 1800000,
     profitLoss := 1, riskPercentUsed := some 1, targetPercentAchieved := some 90,
     session := Session.LONDON, exitedEarly := true },
   { entryTime := 86400000 + 6*3600000, exitTime := 86400000 + 6*3600000 + 1800000,
     profitLoss := 1, riskPercentUsed := some 4, session := Session.LONDON },
   { entryTime := 86400000 + 12*3600000, exitTime := 86400000 + 12*3600000 + 1800000,
     profitLoss := 1, riskPercentUsed := some (61/20), targetPercentAchieved := some 80,
     session := Session.ASIA }]

/-- Plan for the volatility example. -/
def c8Plan : Plan :=
  { maxTradesPerDay := 2, riskPercentPerTrade := 2, preferredSessions := [Session.LONDON] }

/-- A trade with all three nullable fields absent. -/
def nullFieldTrade : Trade :=
  { entryTime := 50000000, exitTime := 50600000, profitLoss := -2, session := Session.NY }

/-- The later of the two state-history trades. -/
def c9Late : Trade :=
  { entryTime := 200000000, exitTime := 200600000, profitLoss := 1, session := Session.LONDON }

/-- The earlier of the two state-history trades. -/
def c9Early : Trade :=
  { entryTime := 100000000, exitTime := 100600000, profitLoss := -1, session := Session.LONDON }

/-- A most-recent-first trade list, as the persistence layer supplies it
(`sort({ entryTime: -1 })`). -/
def c9Trades : List Trade := [c9Late, c9Early]

/-- Plan involved in the state-history call. -/
def c9Plan : Plan :=
  { maxTradesPerDay := 5, riskPercentPerTrade := 2, preferredSessions := [Session.LONDON] }

set_option maxRecDepth 16000

theorem jsRound_nonneg {q : ℚ} (h : 0 ≤ q) : 0 ≤ jsRound q :=
  Int.le_floor.mpr (by norm_num; linarith)

theorem jsRound_le {q : ℚ} {c : ℤ} (h : q ≤ c) : jsRound q ≤ c :=
  Int.lt_add_one_iff.mp (Int.floor_lt.mpr (by push_cast; linarith))

theorem le_jsRound {q : ℚ} {c : ℤ} (h : (c : ℚ) ≤ q) : c ≤ jsRound q :=
  Int.le_floor.mpr (by linarith)

theorem sortByEntry_length (l : List Trade) : (sortByEntry l).length = l.length := by
  have hins : ∀ (x : Trade) (m : List Trade), (insertByEntry x m).length = m.length + 1 := by
    intro x m
    induction m with
    | nil => rfl
    | cons y ys ih =>
        by_cases h : x.entryTime ≤ y.entryTime <;> simp [insertByEntry, h, ih]
  induction l with
  | nil => rfl
  | cons x xs ih => simp [sortByEntry, hins, ih]

theorem scoresWithPrev_length (plan : Option Plan) (prev : Option Trade) (l : List Trade) :
    (scoresWithPrev plan prev l).length = l.length := by
  induction l generalizing prev with
  | nil => rfl
  | cons t ts ih => simp [scoresWithPrev, ih]

theorem calculateTradeScore_le (t : Trade) (plan : Option Plan) (prev : Option Trade) :
    calculateTradeScore t plan prev ≤ 100 := by
  simp only [calculateTradeScore]
  have h1 : (if isInAllowedSession t (sessionsD plan) then 20 else 0) ≤ 20 := by
    split <;> omega
  have h2 : (if hasProperSlTp t (targetRRD plan) then 30 else 0) ≤ 30 := by
    split <;> omega
  have h3 : (if hasCorrectPositionSize t (planRiskD plan) then 25 else 0) ≤ 25 := by
    split <;> omega
  have h4 : (if hasNotes t then 10 else 0) ≤ 10 := by
    split <;> omega
  have h5 : (if hasTimingDiscipline t prev then 15 else 0) ≤ 15 := by
    split <;> omega
  omega

theorem scoresWithPrev_le (plan : Option Plan) (prev : Option Trade) (l : List Trade) :
    ∀ s ∈ scoresWithPrev plan prev l, s ≤ 100 := by
  induction l generalizing prev with
  | nil => intro s hs; simp [scoresWithPrev] at hs
  | cons t ts ih =>
      intro s hs
      simp only [scoresWithPrev, List.mem_cons] at hs
      rcases hs with h | h
      · exact h ▸ calculateTradeScore_le t plan prev
      · exact ih (some t) s h

theorem calculatePlanControl_bounds (trades : List Trade) (plan : Option Plan) :
    0 ≤ (calculatePlanControl trades plan).percentage ∧
      (calculatePlanControl trades plan).percentage ≤ 100 := by
  unfold calculatePlanControl
  split_ifs with h
  · exact ⟨le_refl 0, by norm_num⟩
  · have hpos : 0 < (sortByEntry (trades.take 5)).length := by
      rw [sortByEntry_length, List.length_take]
      cases trades with
      | nil => simp at h
      | cons a l => simp
    have hposQ : (0 : ℚ) < ((sortByEntry (trades.take 5)).length : ℚ) := by exact_mod_cast hpos
    constructor
    · apply jsRound_nonneg
      positivity
    · apply jsRound_le
      rw [div_le_iff₀ hposQ]
      have hlen : (scoresWithPrev plan none (sortByEntry (trades.take 5))).length =
          (sortByEntry (trades.take 5)).length := scoresWithPrev_length _ _ _
      have hsum : (scoresWithPrev plan none (sortByEntry (trades.take 5))).sum ≤
          100 * (sortByEntry (trades.take 5)).length := by
        have h' := List.sum_le_card_nsmul (scoresWithPrev plan none (sortByEntry (trades.take 5)))
          100 (scoresWithPrev_le plan none _)
        rw [smul_eq_mul] at h'
        omega
      have hq := (Nat.cast_le (α := ℚ)).mpr hsum
      push_cast at hq ⊢
      linarith

/-- Claim C10: for every trade list, session, plan and current state —
including the no-data fallback — the session forecast never returns risk
level LOW and never returns forecast POSITIVE: the risk level starts at
MEDIUM and the heuristics only ever raise it, so the POSITIVE branch of the
forecast mapping is unreachable. -/
theorem sessionForecast_no_low_no_positive (trades : List Trade) (session : Option String)
    (plan : Option Plan) (currentState : Option PsychState) :
    (analyzeSessionForecast trades session plan currentState).riskLevel ≠ RiskLevel.LOW ∧
      (analyzeSessionForecast trades session plan currentState).forecast ≠ "POSITIVE" := by
  cases plan with
  | none => exact ⟨by simp [analyzeSessionForecast], by simp [analyzeSessionForecast]⟩
  | some p =>
      by_cases h : trades.length = 0
      · exact ⟨by simp [analyzeSessionForecast, h], by simp [analyzeSessionForecast, h]⟩
      · refine ⟨?_, ?_⟩ <;>
          (simp only [analyzeSessionForecast, h, if_false]
           split_ifs <;> first | decide | contradiction)

/-- Claim C1, counterexample: a legal trade with `riskPercentUsed = 0`
(schema minimum 0) is dropped by the radar's truthiness filter, so on risks
`[0, 2]` against plan risk 2 the aggression base averages over `[2]` (score
50) instead of over the non-null subset `[0, 2]` (score 25): this radar
aggregate is not computed over the trades with a non-null field. -/
theorem aggression_truthy_vs_nonnull_counterexample :
    calculateAggression c1Trades (some c1Plan) = 50 ∧
      calculateAggressionNonNull c1Trades (some c1Plan) = 25 ∧
      calculateAggression c1Trades (some c1Plan) ≠
        calculateAggressionNonNull c1Trades (some c1Plan) := by
  refine ⟨by decide, by decide, by decide⟩

/-- Claim C6, counterexample: with mental battery 35, volatility 50 and one
impulsive trade in the trailing hour, the caller's `sessionStartBattery:
100` (`zentra.service.js` line 179, also the function default) makes the
battery drop 65 > 30, so the battery-drop trigger fires alongside the
low-battery one: two triggers, urgency 20·2 + 15 + 20 = 75, band "high" —
not a single trigger with urgency 35 in band "low". -/
theorem breathwork_at_100_start_counterexample :
    shouldSuggestBreathwork c6Now 35 50 c6Trades 100 =
      { shouldSuggest := true
        triggers := [TriggerType.low_battery, TriggerType.battery_drop]
        urgency := { level := "high", score := 75 } } := by
  decide

/-- Claim C6 as amended: same battery, volatility and impulsive count, with
a session-start battery of 60 (drop 25 ≤ 30): the suggestion fires via the
low-battery trigger only, and the urgency score is 20 (one trigger) + 15
(battery < 40) = 35, in the "low" band.  With the caller's session start of
100 the battery-drop trigger fires too and urgency is 75 ("high"). -/
theorem breathwork_low_battery_only :
    shouldSuggestBreathwork c6Now 35 50 c6Trades 60 =
      { shouldSuggest := true
        triggers := [TriggerType.low_battery]
        urgency := { level := "low", score := 35 } } := by
  decide

/-- Claim C9: `analyzeStateHistory` sorts its input trade list **in place**
(`trades.sort(...)`, `stateHistory.js` line 30), so a most-recent-first list
— the order the persistence layer supplies — is reordered by the call,
contradicting the specified read-only treatment of the trade list. -/
theorem stateHistory_sort_mutates_input :
    stateHistoryTradesAfter c9Trades (some c9Plan) = [c9Early, c9Late] ∧
      stateHistoryTradesAfter c9Trades (some c9Plan) ≠ c9Trades := by
  refine ⟨by decide, by decide⟩

/-- Claim C4, counterexample: the spec's example window (10 trades, 6 wins,
avgRiskUsed 1.8, avgRR 1.4, 2 risk breaches, riskSpike from the last two
risks 2.6 and 2.4, 0 exceeded days, 2 outside-session days of 6) indeed
yields planAdherence 80 and confidence 74 — but its outside-session ratio
2/6 ≥ 0.33 fires the higher-priority OVEREXTENDED rule, so the returned
state is not AGGRESSIVE. -/
theorem classifier_example_not_aggressive :
    (calculateBasicMetrics c4Trades).winRate = 3/5 ∧
      (calculateBasicMetrics c4Trades).avgRiskUsed = 9/5 ∧
      (calculateBasicMetrics c4Trades).avgRR = 7/5 ∧
      calculateRiskBreaches c4Trades (3/2) = 2 ∧
      (calculateRiskSpike c4Trades (3/2)).riskSpike = true ∧
      calculateDayMetrics c4Trades c4Plan =
        { daysWithTrades := 6, exceededDays := 0, outsideSessionDays := 2 } ∧
      (analyzePsychologicalState c4Trades (some c4Plan)).planAdherence = 80 ∧
      (analyzePsychologicalState c4Trades (some c4Plan)).confidence = 74 ∧
      (analyzePsychologicalState c4Trades (some c4Plan)).state ≠ PsychState.AGGRESSIVE := by
  refine ⟨by decide, by decide, by decide, by decide, by decide, by decide, by decide,
    by decide, by decide⟩

/-- Claim C4 as amended: on the spec's example input the classifier computes
planAdherence 80, riskSpike true and confidence 74, and returns state
OVEREXTENDED — the 2-of-6 outside-session ratio meets the ≥ 0.33
overextension threshold, which takes priority over AGGRESSIVE. -/
theorem classifier_example_overextended :
    (analyzePsychologicalState c4Trades (some c4Plan)).planAdherence = 80 ∧
      (calculateRiskSpike c4Trades (3/2)).riskSpike = true ∧
      (analyzePsychologicalState c4Trades (some c4Plan)).confidence = 74 ∧
      (analyzePsychologicalState c4Trades (some c4Plan)).state = PsychState.OVEREXTENDED := by
  refine ⟨by decide, by decide, by decide, by decide⟩

theorem historyGo_length_le (p : Plan) (limit : ℕ) (rest : List Trade) :
    ∀ prevRev last pts cnt, pts.length ≤ limit →
      ((historyGo p limit prevRev rest last pts cnt).1).length ≤ limit := by
  induction rest with
  | nil => intro prevRev last pts cnt h; simpa [historyGo] using h
  | cons t ts ih =>
      intro prevRev last pts cnt h
      simp only [historyGo]
      split_ifs with h1 h2
      · simpa using h
      · apply ih
        simp only [List.length_append, List.length_cons, List.length_nil]
        omega
      · exact ih _ _ _ _ h

/-- Claim C8 as amended: for every input (fallback included), the reported
volatility is `round(√variance′)/100`, where `variance′` is the mean squared
deviation of the emitted confidences from the reported integer
`averageConfidence` (the rounded mean) — not from the exact mean as the
specification states. -/
theorem stateHistory_volatility_rounded_mean (trades : List Trade) (plan : Option Plan)
    (limit : ℕ) :
    (analyzeStateHistory trades plan limit).summary.volatility =
      (roundSqrtQ (varAboutInt (analyzeStateHistory trades plan limit).summary.averageConfidence
        ((analyzeStateHistory trades plan limit).history.map (·.confidence))) : ℚ) / 100 := by
  cases plan with
  | none =>
      simp only [analyzeStateHistory]
      decide
  | some p =>
      by_cases h : trades.length = 0
      · simp only [analyzeStateHistory, h, if_pos]
        decide
      · simp only [analyzeStateHistory, h, if_false]
        rw [List.take_of_length_le (historyGo_length_le p limit _ _ _ _ _ (by simp))]

/-- Claim C8, counterexample: on `c8Trades` the emitted confidences are
`[40, 40, 39]` (states HESITANT, AGGRESSIVE, OVEREXTENDED, so every point is
emitted).  Their exact mean is `119/3`, the reported `averageConfidence` is
40, and the variance about 40 is `1/3`, so the code reports
`round(√(1/3))/100 = 0.01`, while `round(stddev/100, 2)` from the exact
standard deviation `√(2/9)` is `0.00`. -/
theorem stateHistory_volatility_counterexample :
    (analyzeStateHistory c8Trades (some c8Plan) 10).history.map (·.confidence) = [40, 40, 39] ∧
      (analyzeStateHistory c8Trades (some c8Plan) 10).summary.volatility = 1/100 ∧
      specVolatility ((analyzeStateHistory c8Trades (some c8Plan) 10).history.map (·.confidence)) = 0 ∧
      (analyzeStateHistory c8Trades (some c8Plan) 10).summary.volatility ≠
        specVolatility ((analyzeStateHistory c8Trades (some c8Plan) 10).history.map (·.confidence)) := by
  refine ⟨by decide, by decide, by decide, by decide⟩

theorem daysWithTrades_pos (trades : List Trade) (p : Plan) :
    0 < (calculateDayMetrics trades p).daysWithTrades := by
  simp only [calculateDayMetrics]
  split_ifs with h <;> omega

/-- Claim C2: the state classifier is total over (trade list, plan) and its
outcomes are decided in fixed priority OVEREXTENDED > AGGRESSIVE > HESITANT
> STABLE: whenever the computed metrics of the analyzed window satisfy both
the OVEREXTENDED condition (exceeded-day or outside-session ratio ≥ 0.33)
and the AGGRESSIVE condition (risk spike, breach ratio ≥ 0.25, or average
risk above 1.25 × plan), the returned state is OVEREXTENDED. -/
theorem determineState_priority_overextended (trades : List Trade) (p : Plan)
    (hover : ((calculateDayMetrics (trades.take 10) p).exceededDays : ℚ) /
        (calculateDayMetrics (trades.take 10) p).daysWithTrades ≥ 33/100 ∨
      ((calculateDayMetrics (trades.take 10) p).outsideSessionDays : ℚ) /
        (calculateDayMetrics (trades.take 10) p).daysWithTrades ≥ 33/100)
    (haggr : (calculateRiskSpike (trades.take 10) p.riskPercentPerTrade).riskSpike = true ∨
      (calculateRiskBreaches (trades.take 10) p.riskPercentPerTrade : ℚ) /
        (max 1 (trades.take 10).length : ℕ) ≥ 25/100 ∨
      (calculateBasicMetrics (trades.take 10)).avgRiskUsed > p.riskPercentPerTrade * (5/4)) :
    (analyzePsychologicalState trades (some p)).state = PsychState.OVEREXTENDED := by
  by_cases h : trades.length = 0
  · exfalso
    have htr : trades = [] := List.length_eq_zero.mp h
    subst htr
    simp only [List.take_nil, calculateDayMetrics, List.map_nil, List.dedup_nil,
      List.length_nil, List.filter_nil] at hover
    norm_num at hover
  · simp only [analyzePsychologicalState, h, if_false]
    simp only [determineState]
    rw [if_pos ⟨daysWithTrades_pos _ _, hover⟩]

theorem calculateConfidence_bounds (metrics : BasicMetrics) (planAdherence : ℤ)
    (planRisk : ℚ) (totalTrades : ℕ) :
    10 ≤ calculateConfidence metrics planAdherence planRisk totalTrades ∧
      calculateConfidence metrics planAdherence planRisk totalTrades ≤ 95 ∧
      (totalTrades < 5 → calculateConfidence metrics planAdherence planRisk totalTrades ≤ 40) := by
  simp only [calculateConfidence]
  by_cases h5 : totalTrades < 5
  · rw [if_pos h5]
    refine ⟨le_min (le_max_left _ _) (by norm_num), ?_, fun _ => min_le_right _ _⟩
    exact le_trans (min_le_right _ _) (by norm_num)
  · rw [if_neg h5]
    exact ⟨le_max_left _ _, max_le (by norm_num) (min_le_left _ _), fun h => absurd h h5⟩

/-- Claim C3 as amended: the returned confidence always lies in [10, 95];
whenever a plan is present and the (non-empty) window holds fewer than five
trades it is at most 40; and the zero-trade / missing-plan fallback returns
exactly 50 (which is why the claim's "at most 40 including the zero-trade
case" fails). -/
theorem confidence_bounds_amended (trades : List Trade) (plan : Option Plan) :
    10 ≤ (analyzePsychologicalState trades plan).confidence ∧
      (analyzePsychologicalState trades plan).confidence ≤ 95 ∧
      (plan ≠ none → trades ≠ [] → trades.length < 5 →
        (analyzePsychologicalState trades plan).confidence ≤ 40) ∧
      ((plan = none ∨ trades = []) → (analyzePsychologicalState trades plan).confidence = 50) := by
  cases plan with
  | none =>
      exact ⟨by norm_num [analyzePsychologicalState], by norm_num [analyzePsychologicalState],
        fun hp => absurd rfl hp, fun _ => by norm_num [analyzePsychologicalState]⟩
  | some p =>
      by_cases h : trades.length = 0
      · have htr : trades = [] := List.length_eq_zero.mp h
        subst htr
        exact ⟨by simp [analyzePsychologicalState], by simp [analyzePsychologicalState],
          fun _ hne => absurd rfl hne, fun _ => by simp [analyzePsychologicalState]⟩
      · simp only [analyzePsychologicalState, h, if_false]
        have hb := calculateConfidence_bounds (calculateBasicMetrics (trades.take 10))
          (calculatePlanAdherence (calculateRiskBreaches (trades.take 10) p.riskPercentPerTrade)
            (calculateBasicMetrics (trades.take 10)).nearTargetHits
            (calculateDayMetrics (trades.take 10) p) (trades.take 10).length)
          p.riskPercentPerTrade (trades.take 10).length
        refine ⟨hb.1, hb.2.1, fun _ _ hlen => hb.2.2 ?_, fun hor => ?_⟩
        · rw [List.length_take]
          omega
        · rcases hor with h' | h'
          · exact absurd h' (by simp)
          · exact absurd (h' ▸ rfl) h

/-- Witness: on four same-day over-cap, over-risk trades both the
overextension and aggression conditions hold, and the classifier returns
OVEREXTENDED. -/
theorem determineState_priority_witness :
    (((calculateDayMetrics (c2Trades.take 10) c2Plan).exceededDays : ℚ) /
        (calculateDayMetrics (c2Trades.take 10) c2Plan).daysWithTrades ≥ 33/100 ∨
      ((calculateDayMetrics (c2Trades.take 10) c2Plan).outsideSessionDays : ℚ) /
        (calculateDayMetrics (c2Trades.take 10) c2Plan).daysWithTrades ≥ 33/100) ∧
      ((calculateRiskSpike (c2Trades.take 10) c2Plan.riskPercentPerTrade).riskSpike = true ∨
        (calculateRiskBreaches (c2Trades.take 10) c2Plan.riskPercentPerTrade : ℚ) /
          (max 1 (c2Trades.take 10).length : ℕ) ≥ 25/100 ∨
        (calculateBasicMetrics (c2Trades.take 10)).avgRiskUsed >
          c2Plan.riskPercentPerTrade * (5/4)) ∧
      (analyzePsychologicalState c2Trades (some c2Plan)).state = PsychState.OVEREXTENDED :=
  ⟨by decide, by decide,
    determineState_priority_overextended c2Trades c2Plan (by decide) (by decide)⟩

/-- Claim C3, counterexample: the zero-trade fallback (with a plan present)
reports an analyzed window of 0 < 5 trades but confidence 50 > 40. -/
theorem confidence_fallback_counterexample :
    (analyzePsychologicalState [] (some c3Plan)).analyzedTradeCount = 0 ∧
      (analyzePsychologicalState [] (some c3Plan)).confidence = 50 ∧
      ¬ (analyzePsychologicalState [] (some c3Plan)).confidence ≤ 40 := by
  refine ⟨by decide, by decide, by decide⟩

/-- Witness: on a two-trade window with a plan, the confidence lands in
[10, 40]. -/
theorem confidence_bounds_witness :
    10 ≤ (analyzePsychologicalState c3Trades (some c3Plan)).confidence ∧
      (analyzePsychologicalState c3Trades (some c3Plan)).confidence ≤ 40 :=
  ⟨(confidence_bounds_amended c3Trades (some c3Plan)).1,
    (confidence_bounds_amended c3Trades (some c3Plan)).2.2.1 (by decide) (by decide) (by decide)⟩

theorem exists_mem_pad {α : Type} (P : α → Prop) [DecidablePred P] (l : List α) (c : α)
    (hc : P c) :
    ∃ i ∈ (if l.any (fun i => decide (P i)) then l else l ++ [c]), P i := by
  by_cases h : l.any (fun i => decide (P i)) = true
  · rw [if_pos h]
    obtain ⟨i, hi, hp⟩ := List.any_eq_true.mp h
    exact ⟨i, hi, of_decide_eq_true hp⟩
  · rw [if_neg h]
    exact ⟨c, by simp, hc⟩

/-- Claim C5 as amended: every input — the zero-trade and missing-plan
fallback included — yields at least one insight of type CONSTRUCTIVE (the
fallback's single "Add data to unlock insights" insight carries that type;
the enum has no NEUTRAL).  For every non-empty trade list with a plan, the
insights additionally contain a POSITIVE insight selected by adherence ≥ 70,
else winRate ≥ 60, else the generic fallback, and a CONSTRUCTIVE insight
selected by early-exit ratio ≥ 0.3, else adherence < 60, else generic; only
the POSITIVE guarantee fails at the fallback. -/
theorem insights_one_of_each_type (now : ℤ) (trades : List Trade) (p : Plan)
    (h : trades ≠ []) :
    (({ type := InsightType.POSITIVE
        title :=
          if (analyzePerformanceInsights now trades (some p)).planAdherence ≥ 70 then
            "Strong plan adherence"
          else if (analyzePerformanceInsights now trades (some p)).winRate ≥ 60 then
            "Solid win rate"
          else "Consistent practice" } : Insight) ∈
        (analyzePerformanceInsights now trades (some p)).insights ∧
      ({ type := InsightType.CONSTRUCTIVE
         title :=
           if (insightEarlyExits trades : ℚ) / trades.length ≥ 3/10 then "Exiting too early"
           else if (analyzePerformanceInsights now trades (some p)).planAdherence < 60 then
             "Improve plan adherence"
           else "Refine exits" } : Insight) ∈
        (analyzePerformanceInsights now trades (some p)).insights) ∧
      ∀ (m : ℤ) (l : List Trade) (q : Option Plan),
        ∃ i ∈ (analyzePerformanceInsights m l q).insights,
          i.type = InsightType.CONSTRUCTIVE := by
  constructor
  · have h0 : ¬ trades.length = 0 := by simpa [List.length_eq_zero] using h
    simp only [analyzePerformanceInsights, h0, if_false]
    split_ifs <;> simp_all
  · intro m l q
    cases q with
    | none =>
        exact ⟨{ type := InsightType.CONSTRUCTIVE, title := "Add data to unlock insights" },
          by simp [analyzePerformanceInsights], rfl⟩
    | some pq =>
        by_cases hl : l.length = 0
        · exact ⟨{ type := InsightType.CONSTRUCTIVE, title := "Add data to unlock insights" },
            by simp [analyzePerformanceInsights, hl], rfl⟩
        · simp only [analyzePerformanceInsights, hl, if_false]
          exact exists_mem_pad (fun i : Insight => i.type = InsightType.CONSTRUCTIVE) _ _ rfl

/-- Claim C5, counterexample: the zero-trade (and missing-plan) fallback
emits exactly one insight, of type CONSTRUCTIVE — no POSITIVE insight. -/
theorem insights_fallback_no_positive :
    (analyzePerformanceInsights 0 [] (some c5Plan)).insights =
      [{ type := InsightType.CONSTRUCTIVE, title := "Add data to unlock insights" }] ∧
      ∀ i ∈ (analyzePerformanceInsights 0 [] (some c5Plan)).insights,
        i.type ≠ InsightType.POSITIVE := by
  refine ⟨by decide, by decide⟩

/-- Witness: a one-win list with full adherence gets the "Strong plan
adherence" POSITIVE insight and the "Refine exits" CONSTRUCTIVE fallback. -/
theorem insights_one_of_each_type_witness :
    c5Trades ≠ [] ∧
      ({ type := InsightType.POSITIVE
         title :=
           if (analyzePerformanceInsights 0 c5Trades (some c5Plan)).planAdherence ≥ 70 then
             "Strong plan adherence"
           else if (analyzePerformanceInsights 0 c5Trades (some c5Plan)).winRate ≥ 60 then
             "Solid win rate"
           else "Consistent practice" } : Insight) ∈
        (analyzePerformanceInsights 0 c5Trades (some c5Plan)).insights ∧
      ({ type := InsightType.CONSTRUCTIVE
         title :=
           if (insightEarlyExits c5Trades : ℚ) / c5Trades.length ≥ 3/10 then "Exiting too early"
           else if (analyzePerformanceInsights 0 c5Trades (some c5Plan)).planAdherence < 60 then
             "Improve plan adherence"
           else "Refine exits" } : Insight) ∈
        (analyzePerformanceInsights 0 c5Trades (some c5Plan)).insights :=
  ⟨by decide, (insights_one_of_each_type 0 c5Trades c5Plan (by decide)).1.1,
    (insights_one_of_each_type 0 c5Trades c5Plan (by decide)).1.2⟩

theorem truthyRisks_eq_filterMap (trades : List Trade)
    (h : ∀ t ∈ trades, t.riskPercentUsed ≠ some 0) :
    truthyRisks trades = trades.filterMap (·.riskPercentUsed) := by
  induction trades with
  | nil => rfl
  | cons t ts ih =>
      have ht := h t (List.mem_cons_self t ts)
      have ih' := ih (fun u hu => h u (List.mem_cons_of_mem t hu))
      cases hrt : t.riskPercentUsed with
      | none => simpa [truthyRisks, List.filterMap_cons, hrt] using ih'
      | some v =>
          have hv : v ≠ 0 := fun h0 => ht (by rw [hrt, h0])
          simpa [truthyRisks, List.filterMap_cons, hrt, hv] using ih'

/-- Claim C1 as amended: aggregates over nullable trade fields never default
a missing value to zero.  In the analysis metrics they are computed exactly
over the non-null subset — the spec's example risks `[2.0, null, 1.5, null,
2.5]` average to 2.0, and inserting a trade with a null field anywhere
leaves `avgRiskUsed`, `avgRR` and `medianTargetPct` unchanged.  The radar
and scoring-suite averages use the JS truthiness filter instead, which
drops null **and exactly-zero** values, so they agree with the non-null
rule only when no non-null value is exactly 0. -/
theorem nullable_aggregates_amended :
    (calculateBasicMetrics specRiskExampleTrades).avgRiskUsed = 2 ∧
      (∀ (l1 l2 : List Trade) (t : Trade), t.riskPercentUsed = none →
        (calculateBasicMetrics (l1 ++ t :: l2)).avgRiskUsed =
          (calculateBasicMetrics (l1 ++ l2)).avgRiskUsed) ∧
      (∀ (l1 l2 : List Trade) (t : Trade), t.riskRewardAchieved = none →
        (calculateBasicMetrics (l1 ++ t :: l2)).avgRR =
          (calculateBasicMetrics (l1 ++ l2)).avgRR) ∧
      (∀ (l1 l2 : List Trade) (t : Trade), t.targetPercentAchieved = none →
        (calculateBasicMetrics (l1 ++ t :: l2)).medianTargetPct =
          (calculateBasicMetrics (l1 ++ l2)).medianTargetPct) ∧
      (∀ (trades : List Trade) (plan : Option Plan),
        (∀ t ∈ trades, t.riskPercentUsed ≠ some 0) →
        calculateAggression trades plan = calculateAggressionNonNull trades plan) := by
  refine ⟨by decide, ?_, ?_, ?_, ?_⟩
  · intro l1 l2 t ht
    have hfm : (l1 ++ t :: l2).filterMap (·.riskPercentUsed) =
        (l1 ++ l2).filterMap (·.riskPercentUsed) := by
      simp [List.filterMap_append, List.filterMap_cons, ht]
    by_cases h2 : (l1 ++ l2).length = 0
    · have h1 : l1 = [] := by
        apply List.eq_nil_of_length_eq_zero
        simp only [List.length_append] at h2; omega
      have hl2 : l2 = [] := by
        apply List.eq_nil_of_length_eq_zero
        simp only [List.length_append] at h2; omega
      subst h1; subst hl2
      simp [calculateBasicMetrics, ht]
    · have h1 : ¬ (l1 ++ t :: l2).length = 0 := by simp
      simp only [calculateBasicMetrics, h1, h2, if_false]
      rw [hfm]
  · intro l1 l2 t ht
    have hfm : (l1 ++ t :: l2).filterMap (·.riskRewardAchieved) =
        (l1 ++ l2).filterMap (·.riskRewardAchieved) := by
      simp [List.filterMap_append, List.filterMap_cons, ht]
    by_cases h2 : (l1 ++ l2).length = 0
    · have h1 : l1 = [] := by
        apply List.eq_nil_of_length_eq_zero
        simp only [List.length_append] at h2; omega
      have hl2 : l2 = [] := by
        apply List.eq_nil_of_length_eq_zero
        simp only [List.length_append] at h2; omega
      subst h1; subst hl2
      simp [calculateBasicMetrics, ht]
    · have h1 : ¬ (l1 ++ t :: l2).length = 0 := by simp
      simp only [calculateBasicMetrics, h1, h2, if_false]
      rw [hfm]
  · intro l1 l2 t ht
    have hfm : (l1 ++ t :: l2).filterMap (·.targetPercentAchieved) =
        (l1 ++ l2).filterMap (·.targetPercentAchieved) := by
      simp [List.filterMap_append, List.filterMap_cons, ht]
    by_cases h2 : (l1 ++ l2).length = 0
    · have h1 : l1 = [] := by
        apply List.eq_nil_of_length_eq_zero
        simp only [List.length_append] at h2; omega
      have hl2 : l2 = [] := by
        apply List.eq_nil_of_length_eq_zero
        simp only [List.length_append] at h2; omega
      subst h1; subst hl2
      simp [calculateBasicMetrics, ht, computeMedian, sortAsc]
    · have h1 : ¬ (l1 ++ t :: l2).length = 0 := by simp
      simp only [calculateBasicMetrics, h1, h2, if_false]
      rw [hfm]
  · intro trades plan h
    simp only [calculateAggression, calculateAggressionNonNull]
    rw [truthyRisks_eq_filterMap trades h]

/-- Witness: the null-insensitivity equations instantiated with a
null-field trade inserted into a concrete list, and the truthy/non-null
agreement on a zero-free list. -/
theorem nullable_aggregates_witness :
    nullFieldTrade.riskPercentUsed = none ∧
      (calculateBasicMetrics ([] ++ nullFieldTrade :: c1Trades)).avgRiskUsed =
        (calculateBasicMetrics ([] ++ c1Trades)).avgRiskUsed ∧
      (calculateBasicMetrics ([] ++ nullFieldTrade :: c1Trades)).avgRR =
        (calculateBasicMetrics ([] ++ c1Trades)).avgRR ∧
      (calculateBasicMetrics ([] ++ nullFieldTrade :: c1Trades)).medianTargetPct =
        (calculateBasicMetrics ([] ++ c1Trades)).medianTargetPct ∧
      (∀ t ∈ c2Trades, t.riskPercentUsed ≠ some 0) ∧
      calculateAggression c2Trades (some c2Plan) =
        calculateAggressionNonNull c2Trades (some c2Plan) :=
  ⟨rfl, nullable_aggregates_amended.2.1 [] c1Trades nullFieldTrade rfl,
    nullable_aggregates_amended.2.2.1 [] c1Trades nullFieldTrade rfl,
    nullable_aggregates_amended.2.2.2.1 [] c1Trades nullFieldTrade rfl,
    by decide, nullable_aggregates_amended.2.2.2.2 c2Trades (some c2Plan) (by decide)⟩

theorem dedupLen_le_of_subset {l1 l2 : List ℤ} (h : l1 ⊆ l2) :
    l1.dedup.length ≤ l2.dedup.length := by
  rw [← List.card_toFinset, ← List.card_toFinset]
  apply Finset.card_le_card
  intro x hx
  rw [List.mem_toFinset] at hx ⊢
  exact h hx

theorem outsideSessionDays_le (trades : List Trade) (p : Plan) :
    (calculateDayMetrics trades p).outsideSessionDays ≤
      (calculateDayMetrics trades p).daysWithTrades := by
  simp only [calculateDayMetrics]
  refine le_trans (dedupLen_le_of_subset
    (List.map_subset dayKey (fun x hx => List.mem_of_mem_filter hx))) ?_
  split_ifs with h <;> omega

theorem exceededDays_le (trades : List Trade) (p : Plan) :
    (calculateDayMetrics trades p).exceededDays ≤
      (calculateDayMetrics trades p).daysWithTrades := by
  simp only [calculateDayMetrics]
  refine le_trans (List.length_filter_le _ _) ?_
  split_ifs with h <;> omega

theorem calculateRiskBreaches_le (trades : List Trade) (planRisk : ℚ) :
    calculateRiskBreaches trades planRisk ≤ trades.length := by
  simp only [calculateRiskBreaches]
  exact List.length_filter_le _ _

theorem calculatePlanAdherence_bounds (rb nth : ℕ) (dm : DayMetrics) (N : ℕ)
    (h1 : rb ≤ N) (h2 : dm.outsideSessionDays ≤ dm.daysWithTrades)
    (h3 : dm.exceededDays ≤ dm.daysWithTrades) :
    0 ≤ calculatePlanAdherence rb nth dm N ∧ calculatePlanAdherence rb nth dm N ≤ 100 := by
  simp only [calculatePlanAdherence]
  have hNpos : (0:ℚ) < ((max 1 N : ℕ) : ℚ) := by
    have : (1:ℕ) ≤ max 1 N := le_max_left 1 N
    exact_mod_cast Nat.lt_of_lt_of_le Nat.zero_lt_one this
  have hDpos : (0:ℚ) < ((max 1 dm.daysWithTrades : ℕ) : ℚ) := by
    have : (1:ℕ) ≤ max 1 dm.daysWithTrades := le_max_left 1 _
    exact_mod_cast Nat.lt_of_lt_of_le Nat.zero_lt_one this
  have hrb0 : (0:ℚ) ≤ (rb : ℚ) / ((max 1 N : ℕ) : ℚ) := by positivity
  have hrb1 : (rb : ℚ) / ((max 1 N : ℕ) : ℚ) ≤ 1 := by
    rw [div_le_one hNpos]
    exact_mod_cast le_trans h1 (le_max_right 1 N)
  have hout0 : (0:ℚ) ≤ (dm.outsideSessionDays : ℚ) / ((max 1 dm.daysWithTrades : ℕ) : ℚ) := by
    positivity
  have hout1 : (dm.outsideSessionDays : ℚ) / ((max 1 dm.daysWithTrades : ℕ) : ℚ) ≤ 1 := by
    rw [div_le_one hDpos]
    exact_mod_cast le_trans h2 (le_max_right 1 _)
  have hex0 : (0:ℚ) ≤ (dm.exceededDays : ℚ) / ((max 1 dm.daysWithTrades : ℕ) : ℚ) := by positivity
  have hex1 : (dm.exceededDays : ℚ) / ((max 1 dm.daysWithTrades : ℕ) : ℚ) ≤ 1 := by
    rw [div_le_one hDpos]
    exact_mod_cast le_trans h3 (le_max_right 1 _)
  have htp0 : (0:ℚ) ≤ min 1 ((nth : ℚ) / ((max 1 N : ℕ) : ℚ)) := le_min (by norm_num) (by positivity)
  have htp1 : min 1 ((nth : ℚ) / ((max 1 N : ℕ) : ℚ)) ≤ 1 := min_le_left _ _
  constructor
  · apply jsRound_nonneg
    nlinarith
  · apply jsRound_le
    have h100 : ((100:ℤ):ℚ) = 100 := by norm_num
    rw [h100]
    nlinarith

theorem stateAnalysis_planAdherence_bounds (trades : List Trade) (plan : Option Plan) :
    0 ≤ (analyzePsychologicalState trades plan).planAdherence ∧
      (analyzePsychologicalState trades plan).planAdherence ≤ 100 := by
  cases plan with
  | none => refine ⟨by norm_num [analyzePsychologicalState], by norm_num [analyzePsychologicalState]⟩
  | some p =>
      by_cases h : trades.length = 0
      · have htr : trades = [] := List.length_eq_zero.mp h
        subst htr
        exact ⟨by norm_num [analyzePsychologicalState], by norm_num [analyzePsychologicalState]⟩
      · simp only [analyzePsychologicalState, h, if_false]
        exact calculatePlanAdherence_bounds _ _ _ _
          (calculateRiskBreaches_le _ _) (outsideSessionDays_le _ _) (exceededDays_le _ _)

theorem avgQ_nonneg {l : List ℚ} (h : ∀ v ∈ l, 0 ≤ v) : 0 ≤ avgQ l :=
  div_nonneg (List.sum_nonneg h) (by positivity)

theorem truthyRisks_nonneg {trades : List Trade}
    (h : ∀ t ∈ trades, 0 ≤ t.riskPercentUsed.getD 0) :
    ∀ v ∈ truthyRisks trades, 0 ≤ v := by
  intro v hv
  simp only [truthyRisks, List.mem_filterMap] at hv
  obtain ⟨t, hmem, hts⟩ := hv
  have ht := h t hmem
  cases hrt : t.riskPercentUsed with
  | none => rw [hrt] at hts; dsimp only at hts; simp at hts
  | some w =>
      rw [hrt] at hts ht
      simp only [Option.getD_some] at ht
      dsimp only at hts
      split_ifs at hts with hw
      obtain rfl : w = v := Option.some.inj hts
      exact ht

theorem planRiskD_pos (plan : Option Plan)
    (hpl : 0 ≤ (plan.map (fun p => p.riskPercentPerTrade)).getD 1) : 0 < planRiskD plan := by
  cases plan with
  | none => norm_num [planRiskD]
  | some p =>
      simp only [Option.map_some', Option.getD_some] at hpl
      simp only [planRiskD]
      split_ifs with h
      · norm_num
      · exact lt_of_le_of_ne hpl (Ne.symm h)

theorem calculateAggression_bounds (trades : List Trade) (plan : Option Plan)
    (htr : ∀ t ∈ trades, 0 ≤ t.riskPercentUsed.getD 0)
    (hpl : 0 ≤ (plan.map (fun p => p.riskPercentPerTrade)).getD 1) :
    0 ≤ calculateAggression trades plan ∧ calculateAggression trades plan ≤ 100 := by
  simp only [calculateAggression]
  by_cases h : trades.length = 0
  · rw [if_pos h]; norm_num
  · rw [if_neg h]
    refine ⟨le_min (by norm_num) (jsRound_nonneg ?_), min_le_left _ _⟩
    have hpr := planRiskD_pos plan hpl
    have hbase : (0:ℚ) ≤
        (if (truthyRisks trades).length > 0 then avgQ (truthyRisks trades) / planRiskD plan * 50
         else 0) := by
      split_ifs with h2
      · have havg := avgQ_nonneg (truthyRisks_nonneg htr)
        positivity
      · exact le_refl 0
    have hb1 : (0:ℚ) ≤ (if (trades.any fun t =>
        match t.riskPercentUsed with
        | some v => decide (v ≠ 0) && decide (v > planRiskD plan * (3/2))
        | none => false) = true then 20 else 0) := by split_ifs <;> norm_num
    have hb2 : (0:ℚ) ≤ (if (anyAdjacent (fun prev t =>
        decide (prev.profitLoss < 0) &&
          match t.riskPercentUsed with
          | some v => decide (v ≠ 0) && decide (v > planRiskD plan * (13/10))
          | none => false) (sortByEntry trades)) = true then 15 else 0) := by
      split_ifs <;> norm_num
    linarith

theorem calculateDiscipline_bounds (trades : List Trade) (plan : Option Plan) (pcp : ℚ)
    (hpcp : 0 ≤ pcp) :
    0 ≤ calculateDiscipline trades plan pcp ∧ calculateDiscipline trades plan pcp ≤ 100 := by
  simp only [calculateDiscipline]
  refine ⟨le_min (by norm_num) (jsRound_nonneg ?_), min_le_left _ _⟩
  split_ifs <;> linarith

theorem calculateImpulseControl_bounds (trades : List Trade) :
    0 ≤ calculateImpulseControl trades ∧ calculateImpulseControl trades ≤ 100 := by
  simp only [calculateImpulseControl]
  split_ifs with h
  · norm_num
  · refine ⟨le_max_left _ _, max_le (by norm_num) (jsRound_le ?_)⟩
    have hc : (0:ℚ) ≤ ((countAdjacent (fun prev t => isImpulsiveReentry t prev)
        (sortByEntry trades) : ℕ) : ℚ) / 5 * 100 := by positivity
    push_cast
    push_cast at hc
    linarith

theorem calculateHesitation_bounds (trades : List Trade) :
    0 ≤ calculateHesitation trades ∧ calculateHesitation trades ≤ 100 := by
  simp only [calculateHesitation]
  split_ifs <;>
    first
      | exact ⟨le_min (by norm_num) (jsRound_nonneg (by positivity)), min_le_left _ _⟩
      | norm_num

theorem calculateConsistency_bounds (trades : List Trade) (plan : Option Plan) :
    0 ≤ calculateConsistency trades plan ∧ calculateConsistency trades plan ≤ 100 := by
  simp only [calculateConsistency]
  by_cases h : trades.length = 0
  · rw [if_pos h]; norm_num
  · rw [if_neg h]
    exact ⟨le_max_left _ _, max_le (by norm_num) (min_le_left _ _)⟩

theorem calculateEmotionalVolatility_bounds (a b : ℤ) :
    0 ≤ calculateEmotionalVolatility a b ∧ calculateEmotionalVolatility a b ≤ 100 := by
  simp only [calculateEmotionalVolatility]
  refine ⟨le_min (by norm_num) (jsRound_nonneg ?_), min_le_left _ _⟩
  split_ifs <;> positivity

theorem calculateMentalBattery_bounds (trades : List Trade) (plan : Option Plan) (pcp : ℚ) :
    0 ≤ (calculateMentalBattery trades plan pcp).battery ∧
      (calculateMentalBattery trades plan pcp).battery ≤ 100 := by
  simp only [calculateMentalBattery]
  by_cases h : trades.length = 0
  · rw [if_pos h]
    exact ⟨by norm_num, by norm_num⟩
  · rw [if_neg h]
    exact ⟨le_max_left _ _, max_le (by norm_num) (min_le_left _ _)⟩

theorem calculateWindowScore_bounds (trades : List Trade) (plan : Option Plan) :
    0 ≤ calculateWindowScore trades plan ∧ calculateWindowScore trades plan ≤ 100 := by
  simp only [calculateWindowScore]
  constructor
  · exact jsRound_nonneg (le_max_left _ _)
  · apply jsRound_le
    have h100 : ((100:ℤ):ℚ) = 100 := by norm_num
    rw [h100]
    exact max_le (by norm_num) (min_le_left _ _)

theorem calculatePsychologicalRadar_bounds (trades : List Trade) (plan : Option Plan)
    (htr : ∀ t ∈ trades, 0 ≤ t.riskPercentUsed.getD 0)
    (hpl : 0 ≤ (plan.map (fun p => p.riskPercentPerTrade)).getD 1) :
    (0 ≤ (calculatePsychologicalRadar trades plan).discipline ∧
        (calculatePsychologicalRadar trades plan).discipline ≤ 100) ∧
    (0 ≤ (calculatePsychologicalRadar trades plan).impulseControl ∧
        (calculatePsychologicalRadar trades plan).impulseControl ≤ 100) ∧
    (0 ≤ (calculatePsychologicalRadar trades plan).aggression ∧
        (calculatePsychologicalRadar trades plan).aggression ≤ 100) ∧
    (0 ≤ (calculatePsychologicalRadar trades plan).hesitation ∧
        (calculatePsychologicalRadar trades plan).hesitation ≤ 100) ∧
    (0 ≤ (calculatePsychologicalRadar trades plan).consistency ∧
        (calculatePsychologicalRadar trades plan).consistency ≤ 100) ∧
    (0 ≤ (calculatePsychologicalRadar trades plan).emotionalVolatility ∧
        (calculatePsychologicalRadar trades plan).emotionalVolatility ≤ 100) := by
  simp only [calculatePsychologicalRadar]
  by_cases h : trades.length = 0
  · rw [if_pos h]
    norm_num
  · rw [if_neg h]
    have htr5 : ∀ t ∈ trades.take 5, 0 ≤ t.riskPercentUsed.getD 0 :=
      fun t ht => htr t (List.take_subset 5 trades ht)
    have hpcp : (0:ℚ) ≤ ((calculatePlanControl (trades.take 5) plan).percentage : ℚ) := by
      exact_mod_cast (calculatePlanControl_bounds (trades.take 5) plan).1
    exact ⟨calculateDiscipline_bounds _ plan _ hpcp, calculateImpulseControl_bounds _,
      calculateAggression_bounds _ plan htr5 hpl, calculateHesitation_bounds _,
      calculateConsistency_bounds _ plan, calculateEmotionalVolatility_bounds _ _⟩

/-- Claim C7: for every trade list whose recorded risk percentages are
nonnegative and every plan whose per-trade risk is nonnegative (both enforced
by the schema's `min: 0` validators), all published scores lie within
[0, 100]: the state analysis's plan-adherence score, all six psychological
radar traits, the mental-battery level (for any plan-control percentage), the
plan-control percentage itself, and the behavior-heatmap window score. -/
theorem scores_within_range (trades : List Trade) (plan : Option Plan) (pcp : ℚ)
    (htr : ∀ t ∈ trades, 0 ≤ t.riskPercentUsed.getD 0)
    (hpl : 0 ≤ (plan.map (fun p => p.riskPercentPerTrade)).getD 1) :
    (0 ≤ (analyzePsychologicalState trades plan).planAdherence ∧
        (analyzePsychologicalState trades plan).planAdherence ≤ 100) ∧
    ((0 ≤ (calculatePsychologicalRadar trades plan).discipline ∧
        (calculatePsychologicalRadar trades plan).discipline ≤ 100) ∧
      (0 ≤ (calculatePsychologicalRadar trades plan).impulseControl ∧
        (calculatePsychologicalRadar trades plan).impulseControl ≤ 100) ∧
      (0 ≤ (calculatePsychologicalRadar trades plan).aggression ∧
        (calculatePsychologicalRadar trades plan).aggression ≤ 100) ∧
      (0 ≤ (calculatePsychologicalRadar trades plan).hesitation ∧
        (calculatePsychologicalRadar trades plan).hesitation ≤ 100) ∧
      (0 ≤ (calculatePsychologicalRadar trades plan).consistency ∧
        (calculatePsychologicalRadar trades plan).consistency ≤ 100) ∧
      (0 ≤ (calculatePsychologicalRadar trades plan).emotionalVolatility ∧
        (calculatePsychologicalRadar trades plan).emotionalVolatility ≤ 100)) ∧
    (0 ≤ (calculateMentalBattery trades plan pcp).battery ∧
        (calculateMentalBattery trades plan pcp).battery ≤ 100) ∧
    (0 ≤ (calculatePlanControl trades plan).percentage ∧
        (calculatePlanControl trades plan).percentage ≤ 100) ∧
    (0 ≤ calculateWindowScore trades plan ∧ calculateWindowScore trades plan ≤ 100) :=
  ⟨stateAnalysis_planAdherence_bounds trades plan,
   calculatePsychologicalRadar_bounds trades plan htr hpl,
   calculateMentalBattery_bounds trades plan pcp,
   calculatePlanControl_bounds trades plan,
   calculateWindowScore_bounds trades plan⟩

/-- Witness: the range theorem applied to the concrete C7 input, with both
nonnegativity hypotheses discharged by computation. -/
theorem scores_within_range_witness :
    (∀ t ∈ c7Trades, 0 ≤ t.riskPercentUsed.getD 0) ∧
    (0 ≤ ((some c7Plan).map (fun p => p.riskPercentPerTrade)).getD 1) ∧
    (0 ≤ calculateWindowScore c7Trades (some c7Plan) ∧
      calculateWindowScore c7Trades (some c7Plan) ≤ 100) :=
  ⟨by decide, by decide,
    (scores_within_range c7Trades (some c7Plan) 0 (by decide) (by decide)).2.2.2.2⟩
